import Mathlib

/-!
# Provisioning controller of `esp_ot_br.c`

A shallow embedding of the provisioning and bootstrap code of
`examples/basic_thread_border_router/main/esp_ot_br.c`:
`url_decode`, `check_reset_button`, `reset_wifi_credentials`,
`wifi_credentials_exist`, `wifi_connect_event_handler`, `wifi_connect_handler` and the
mode selection of `app_main`.

Conventions.
* A `char` is a natural number below 256; arithmetic that is stored back
  into a `char` is reduced modulo 256.
* A C string argument is the list of bytes found at the pointer; reading
  stops at the first zero byte, and the end of the list stands for the
  terminating zero byte.
* Calls into ESP-IDF, FreeRTOS and the HTTP server are recorded in a trace;
  what those calls return is supplied by an environment record.
-/

namespace EspOtBr

/-! ## Bytes and C strings -/

/-- The bytes of an ASCII literal. -/
def bytes (s : String) : List Nat := s.toList.map Char.toNat

/-- The C string stored at the start of `mem`: the bytes before the first zero byte. -/
def c_str (mem : List Nat) : List Nat := mem.takeWhile (fun c => c ≠ 0)

/-- The libc `isxdigit` in the C locale: `0-9`, `A-F`, `a-f`. -/
def isxdigit (c : Nat) : Bool :=
  (48 ≤ c && c ≤ 57) || (65 ≤ c && c ≤ 70) || (97 ≤ c && c ≤ 102)

/-- The three statements of `url_decode` that turn a hexadecimal digit into its value
(lines 81-83, and 84-86 for the second digit):
`if (a >= 'a') a -= 'a' - 'A'; if (a >= 'A') a -= ('A' - 10); else a -= '0';`.
They run only on characters accepted by `isxdigit`, all below 128, so the signedness
of `char` plays no role. -/
def hex_adjust (a : Nat) : Nat :=
  let a1 := if a ≥ 97 then (a + 256 - (97 - 65)) % 256 else a
  if a1 ≥ 65 then (a1 + 256 - (65 - 10)) % 256 else (a1 + 256 - 48) % 256

/-- Function `url_decode(src, dst)` (lines 74-97): the bytes stored through `dst` before
the final `'\0'`. The loop stops at the first zero byte of `src`; `src[1]` and `src[2]`
are tested for zero before `isxdigit` is applied (line 79). -/
def url_decode : List Nat → List Nat
  | [] => []
  | c :: rest =>
    if c = 0 then []
    else if c = 37 then
      match rest with
      | a :: b :: rest2 =>
        if a ≠ 0 ∧ b ≠ 0 ∧ isxdigit a = true ∧ isxdigit b = true then
          ((16 * hex_adjust a + hex_adjust b) % 256) :: url_decode rest2
        else c :: url_decode (a :: b :: rest2)
      | [a] => c :: url_decode [a]
      | [] => [c]
    else if c = 43 then 32 :: url_decode rest
    else c :: url_decode rest

/-- The memory `url_decode` leaves at `dst`: the decoded bytes and the terminator. -/
def url_decode_written (src : List Nat) : List Nat := url_decode src ++ [0]

/-- The libc `strstr(haystack, needle)`: the suffix of `haystack` at the first occurrence of
`needle`, or `none` (a null pointer). -/
def strstr : List Nat → List Nat → Option (List Nat)
  | [], needle => if needle = [] then some [] else none
  | c :: cs, needle =>
    if needle.isPrefixOf (c :: cs) = true then some (c :: cs) else strstr cs needle

/-- The libc `strchr(s, ch)` for a non-zero `ch`: the suffix of `s` at the first `ch`, or `none`. -/
def strchr : List Nat → Nat → Option (List Nat)
  | [], _ => none
  | c :: cs, ch => if c = ch then some (c :: cs) else strchr cs ch

/-- The libc `strncpy(dst, src, n)`: the `n` bytes stored at `dst`, zero padding included. -/
def strncpy (src : List Nat) (n : Nat) : List Nat :=
  (c_str src).take n ++ List.replicate (n - (c_str src).length) 0

/-! ## The form decoder of the specification -/

/-- The value of a hexadecimal digit. -/
def hexval (c : Nat) : Nat :=
  if 48 ≤ c ∧ c ≤ 57 then c - 48
  else if 97 ≤ c ∧ c ≤ 102 then c - 97 + 10
  else c - 65 + 10

/-- The standard form decoder, scanning left to right: `%XY` with two hexadecimal
digits is the byte `16 * hexval X + hexval Y`, `+` is a space, any other character
is itself. -/
def form_decode : List Nat → List Nat
  | [] => []
  | [c] => if c = 43 then [32] else [c]
  | [c, d] => (if c = 43 then 32 else c) :: form_decode [d]
  | c :: a :: b :: rest =>
    if c = 37 ∧ isxdigit a = true ∧ isxdigit b = true then
      (16 * hexval a + hexval b) :: form_decode rest
    else (if c = 43 then 32 else c) :: form_decode (a :: b :: rest)

/-! ## Reset button -/

/-- Constant `RESET_HOLD_TIME_MS` (line 41). -/
def RESET_HOLD_TIME_MS : Nat := 3000

/-- What one call of `check_reset_button` did: its return value, the number of
`gpio_get_level` calls and the number of `vTaskDelay(pdMS_TO_TICKS(100))` calls. -/
structure ResetCheck where
  pressed : Bool
  samples : Nat
  delays : Nat
  deriving DecidableEq, Repr

/-- The `while (held_time < RESET_HOLD_TIME_MS)` loop of `check_reset_button`
(lines 114-122). `gpio_get_level i` is the level read by the `i`-th call (from 0);
`fuel` bounds the number of evaluations of the loop condition. -/
def check_reset_loop (gpio_get_level : Nat → Nat) : Nat → Nat → Nat → Nat → Option ResetCheck
  | 0, _, _, _ => none
  | fuel + 1, held_time, samples, delays =>
    if held_time < RESET_HOLD_TIME_MS then
      if gpio_get_level samples = 0 then some ⟨true, samples + 1, delays⟩
      else check_reset_loop gpio_get_level fuel (held_time + 100) (samples + 1) (delays + 1)
    else some ⟨false, samples, delays⟩

/-- Function `check_reset_button` (lines 99-123), after `gpio_config`: `held_time = 0`
and the loop. -/
def check_reset_button (fuel : Nat) (gpio_get_level : Nat → Nat) : Option ResetCheck :=
  check_reset_loop gpio_get_level fuel 0 0 0

/-! ## Credential store -/

/-- An `esp_err_t` value. -/
abbrev esp_err_t := Int

def ESP_OK : esp_err_t := 0
def ESP_FAIL : esp_err_t := -1
def ESP_ERR_NVS_NOT_FOUND : esp_err_t := 0x1102
def ESP_ERR_WIFI_NOT_STARTED : esp_err_t := 0x3002

/-- The string entries of the NVS namespace `wifi_config`. -/
abbrev NvsNamespace := List (String × List Nat)

/-- The ESP-IDF call `nvs_get_str(handle, key, NULL, &required_size)`: the required size,
which counts the terminating zero byte, or `ESP_ERR_NVS_NOT_FOUND` when the key is
absent (then `required_size` is not written). -/
def nvs_get_str (ns : NvsNamespace) (key : String) : Except esp_err_t Nat :=
  match ns.lookup key with
  | some value => .ok (value.length + 1)
  | none => .error ESP_ERR_NVS_NOT_FOUND

/-- The namespace after a successful `nvs_set_str(handle, key, value)`. -/
def nvs_set_str (ns : NvsNamespace) (key : String) (value : List Nat) : NvsNamespace :=
  (key, c_str value) :: ns.filter (fun e => e.1 ≠ key)

/-- Function `wifi_credentials_exist` (lines 135-147); `nvs_open_err` is what
`nvs_open("wifi_config", NVS_READONLY, ..)` returns. -/
def wifi_credentials_exist (nvs_open_err : esp_err_t) (ns : NvsNamespace) : Bool :=
  if nvs_open_err ≠ ESP_OK then false
  else
    match nvs_get_str ns "ssid" with
    | .ok required_size => decide (required_size > 1)
    | .error _ => false

/-! ## Connect handler -/

/-- The calls the handlers make into the HTTP server, the radio, FreeRTOS and NVS. -/
inductive Action where
  | httpd_resp_send_err (status : Nat) (msg : String)
  | httpd_resp_set_type (mime : String)
  | httpd_resp_sendstr (body : String)
  | esp_wifi_disconnect
  | esp_wifi_set_config (ssid password : List Nat)
  | esp_wifi_connect
  | log_warning
  | xSemaphoreCreateBinary (result : Option Nat)
  | xSemaphoreGive (sem : Nat)
  | xSemaphoreTake (sem : Nat) (timeout_ms : Nat) (taken : Bool)
  | vSemaphoreDelete (sem : Nat)
  | nvs_open
  | nvs_set_str (key : String) (value : List Nat)
  | nvs_commit
  | nvs_close
  deriving DecidableEq, Repr

/-- The module-level variables (lines 48-49) and the persisted namespace. -/
structure State where
  wifi_connect_semaphore : Option Nat
  wifi_connect_success : Bool
  nvs : NvsNamespace
  deriving DecidableEq, Repr

/-- The state together with the calls made so far. -/
structure World where
  st : State
  trace : List Action
  deriving DecidableEq, Repr

/-- Record a call. -/
def World.call (w : World) (a : Action) : World :=
  { w with trace := w.trace ++ [a] }

/-- Assign `wifi_connect_semaphore`. -/
def World.set_semaphore (w : World) (h : Option Nat) : World :=
  { w with st := { w.st with wifi_connect_semaphore := h } }

/-- Assign `wifi_connect_success`. -/
def World.set_success (w : World) (b : Bool) : World :=
  { w with st := { w.st with wifi_connect_success := b } }

/-- Replace the contents of the namespace. -/
def World.set_nvs (w : World) (ns : NvsNamespace) : World :=
  { w with st := { w.st with nvs := ns } }

/-- The effect of one call on the token of the binary semaphore `sem`: it is created
empty, a give fills it, a successful take empties it. -/
def semaphore_step (sem : Nat) (avail : Bool) (a : Action) : Bool :=
  match a with
  | .xSemaphoreCreateBinary (some s) => if s = sem then false else avail
  | .xSemaphoreGive s => if s = sem then true else avail
  | .xSemaphoreTake s _ true => if s = sem then false else avail
  | _ => avail

/-- Whether the binary semaphore `sem` holds a token after the calls of `trace`. -/
def semaphore_available (trace : List Action) (sem : Nat) : Bool :=
  trace.foldl (semaphore_step sem) false

/-- Function `wifi_connect_event_handler` (lines 170-177), run for
`WIFI_EVENT_STA_CONNECTED`. -/
def wifi_connect_event_handler (w : World) : World :=
  match w.st.wifi_connect_semaphore with
  | some sem => (w.set_success true).call (.xSemaphoreGive sem)
  | none => w

/-- What the environment answers during one run of `wifi_connect_handler`: the return
values of the calls, and the windows in which a `WIFI_EVENT_STA_CONNECTED` event is
delivered to `wifi_connect_event_handler`. -/
structure Env where
  esp_wifi_disconnect : esp_err_t
  xSemaphoreCreateBinary : Option Nat
  esp_wifi_set_config : esp_err_t
  esp_wifi_connect : esp_err_t
  /-- An event is handled after line 270 and before line 277 clears the flag. -/
  connected_after_create : Bool
  /-- An event is handled after line 277 and before the test of line 282. -/
  connected_after_clear : Bool
  /-- An event is handled after the test of line 282 and before `xSemaphoreTake`
  returns: before the call, or while it blocks and the timeout has not expired. -/
  connected_before_timeout : Bool
  nvs_open : esp_err_t
  nvs_set_str_ssid : esp_err_t
  nvs_set_str_password : esp_err_t
  nvs_commit : esp_err_t
  deriving DecidableEq, Repr

/-- What `httpd_req_recv(req, buf, sizeof(buf) - 1)` did: its return value and the
bytes it stored in `buf`. -/
structure Request where
  ret : Int
  buf : List Nat
  deriving DecidableEq, Repr

/-- How a run ends: the handler returns a code, `ESP_ERROR_CHECK` aborts, or a store
past the end of `decoded_ssid` or `decoded_password` leaves the behaviour undefined. -/
inductive Outcome where
  | returned (code : esp_err_t)
  | aborted
  | undefined
  deriving DecidableEq, Repr

/-- The result of one run: how it ended, the state it left, the calls it made. -/
structure Run where
  outcome : Outcome
  st : State
  trace : List Action
  deriving DecidableEq, Repr

def WIFI_CONNECT_TIMEOUT_MS : Nat := 30000

def resp_semaphore_error : String :=
  "\x7b\"status\":\"error\",\"message\":\"Не удалось создать семафор\"\x7d"
def resp_connect_error : String :=
  "\x7b\"status\":\"error\",\"message\":\"Не удалось инициировать подключение\"\x7d"
def resp_success : String :=
  "\x7b\"status\":\"success\",\"message\":\"Подключение успешно. Настройки сохранены. Перезагрузите устройство\"\x7d"
def resp_join_error : String :=
  "\x7b\"status\":\"error\",\"message\":\"Не удалось подключиться к указанной сети.\"\x7d"
def resp_timeout_error : String :=
  "\x7b\"status\":\"error\",\"message\":\"Не удалось подключиться: превышено время ожидания.\"\x7d"

/-- Whether a JSON response body starts with the member `"status":"<status>"`. -/
def json_status_is (status : String) (body : String) : Bool :=
  ("\x7b\"status\":\"" ++ status ++ "\",").toList.isPrefixOf body.toList

/-- The pair `httpd_resp_set_type(req, "application/json"); httpd_resp_sendstr(req, body);`. -/
def send_json (w : World) (body : String) : World :=
  (w.call (.httpd_resp_set_type "application/json")).call (.httpd_resp_sendstr body)

/-- The response bodies and error responses among the calls of a trace. -/
def responses (trace : List Action) : List Action :=
  trace.filter (fun a =>
    match a with
    | .httpd_resp_sendstr _ => true
    | .httpd_resp_send_err _ _ => true
    | _ => false)

/-- End a run in world `w`. -/
def World.finish (w : World) (o : Outcome) : Run := ⟨o, w.st, w.trace⟩

/-- Lines 229-247: locate the two fields in the zero-terminated `buf`. The result is
the message of the 400 response, or the strings at `ssid` (cut at `ssid_end`) and
`password`. -/
def parse_connect_body (buf : List Nat) : Except String (List Nat × List Nat) :=
  match strstr buf (bytes "ssid=") with
  | none => .error "Missing SSID"
  | some p =>
    let ssid := p.drop 5
    match strchr ssid 38 with
    | none => .error "Invalid SSID format"
    | some ssid_end =>
      match strstr (ssid_end.drop 1) (bytes "password=") with
      | none => .error "Missing password"
      | some q => .ok (ssid.take (ssid.length - ssid_end.length), q.drop 9)

/-- Lines 298-303: the four NVS calls under `ESP_ERROR_CHECK`, then `nvs_close`.
The flag is `false` when one of the checks aborts; the world then holds what was
written before the failing call. -/
def save_credentials (w : World) (decoded_ssid decoded_password : List Nat) (env : Env) :
    World × Bool :=
  let w := w.call .nvs_open
  if env.nvs_open ≠ ESP_OK then (w, false)
  else
    let w := w.call (.nvs_set_str "ssid" (c_str decoded_ssid))
    if env.nvs_set_str_ssid ≠ ESP_OK then (w, false)
    else
      let w := w.set_nvs (nvs_set_str w.st.nvs "ssid" decoded_ssid)
      let w := w.call (.nvs_set_str "password" (c_str decoded_password))
      if env.nvs_set_str_password ≠ ESP_OK then (w, false)
      else
        let w := w.set_nvs (nvs_set_str w.st.nvs "password" decoded_password)
        let w := w.call .nvs_commit
        if env.nvs_commit ≠ ESP_OK then (w, false)
        else (w.call .nvs_close, true)

/-- Lines 291-318 of `wifi_connect_handler`: the wait on the semaphore `sem` and what
follows it. -/
def wifi_connect_wait (w : World) (sem : Nat) (decoded_ssid decoded_password : List Nat)
    (env : Env) : Run :=
  let w := if env.connected_before_timeout = true then wifi_connect_event_handler w else w
  -- xSemaphoreTake(wifi_connect_semaphore, pdMS_TO_TICKS(WIFI_CONNECT_TIMEOUT_MS))
  if semaphore_available w.trace sem = true then
    let w := w.call (.xSemaphoreTake sem WIFI_CONNECT_TIMEOUT_MS true)
    let w := (w.call (.vSemaphoreDelete sem)).set_semaphore none
    if w.st.wifi_connect_success = true then
      let saved := save_credentials w decoded_ssid decoded_password env
      if saved.2 = true then (send_json saved.1 resp_success).finish (.returned ESP_OK)
      else saved.1.finish .aborted
    else (send_json w resp_join_error).finish (.returned ESP_OK)
  else
    let w := w.call (.xSemaphoreTake sem WIFI_CONNECT_TIMEOUT_MS false)
    let w := ((w.call .esp_wifi_disconnect).call (.vSemaphoreDelete sem)).set_semaphore none
    (send_json w resp_timeout_error).finish (.returned ESP_OK)

/-- Lines 253-320 of `wifi_connect_handler`, entered with the contents of the two
decoded buffers. -/
def wifi_connect_join (st : State) (decoded_ssid decoded_password : List Nat) (env : Env) :
    Run :=
  let sta_ssid := strncpy decoded_ssid 32
  let sta_password := strncpy decoded_password 64
  let w : World := ⟨st, []⟩
  -- esp_err_t err = esp_wifi_disconnect();
  let w := w.call .esp_wifi_disconnect
  let w :=
    if env.esp_wifi_disconnect ≠ ESP_OK ∧ env.esp_wifi_disconnect ≠ ESP_ERR_WIFI_NOT_STARTED
    then w.call .log_warning else w
  -- wifi_connect_semaphore = xSemaphoreCreateBinary();
  let w := (w.call (.xSemaphoreCreateBinary env.xSemaphoreCreateBinary)).set_semaphore
    env.xSemaphoreCreateBinary
  match env.xSemaphoreCreateBinary with
  | none => (send_json w resp_semaphore_error).finish (.returned ESP_FAIL)
  | some sem =>
    let w := if env.connected_after_create = true then wifi_connect_event_handler w else w
    -- wifi_connect_success = false;
    let w := w.set_success false
    -- ESP_ERROR_CHECK(esp_wifi_set_config(WIFI_IF_STA, &wifi_config));
    let w := w.call (.esp_wifi_set_config sta_ssid sta_password)
    if env.esp_wifi_set_config ≠ ESP_OK then w.finish .aborted
    else
      -- err = esp_wifi_connect();
      let w := w.call .esp_wifi_connect
      let w := if env.connected_after_clear = true then wifi_connect_event_handler w else w
      if env.esp_wifi_connect ≠ ESP_OK then
        let w := (w.call (.xSemaphoreGive sem)).call (.vSemaphoreDelete sem)
        let w := w.set_semaphore none
        (send_json w resp_connect_error).finish (.returned ESP_FAIL)
      else wifi_connect_wait w sem decoded_ssid decoded_password env

/-- Function `wifi_connect_handler` (lines 214-321). `req` is what `httpd_req_recv`
delivered (at most 511 bytes, by its contract) and `env` what the later calls answer.
The decoded fields are written into `decoded_ssid[32]` and `decoded_password[64]`; a
write past their end is recorded as the outcome `undefined`. -/
def wifi_connect_handler (st : State) (req : Request) (env : Env) : Run :=
  if req.ret ≤ 0 then
    ⟨.returned ESP_FAIL, st, [.httpd_resp_send_err 400 "Invalid request"]⟩
  else
    -- buf[ret] = '\0';
    let buf := c_str (req.buf.take req.ret.toNat)
    match parse_connect_body buf with
    | .error msg => ⟨.returned ESP_FAIL, st, [.httpd_resp_send_err 400 msg]⟩
    | .ok (ssid, password) =>
      -- url_decode(ssid, decoded_ssid); url_decode(password, decoded_password);
      let decoded_ssid := url_decode_written ssid
      let decoded_password := url_decode_written password
      if decoded_ssid.length > 32 ∨ decoded_password.length > 64 then
        ⟨.undefined, st, []⟩
      else wifi_connect_join st decoded_ssid decoded_password env

/-! ## Bootstrap -/

def ESP_ERR_NO_MEM : esp_err_t := 0x101

/-- What NVS answers during the bootstrap sequence of `app_main` (lines 543-558). The
result of `nvs_commit` in `reset_wifi_credentials` is ignored by the code and plays no
role. -/
structure BootEnv where
  /-- Result of `nvs_open("wifi_config", NVS_READWRITE, ..)` in `reset_wifi_credentials`. -/
  reset_nvs_open : esp_err_t
  /-- Result of `nvs_erase_all`, which the code does not test. -/
  nvs_erase_all : esp_err_t
  /-- The entries a failing `nvs_erase_all` leaves in the namespace. -/
  erase_failed_leaves : NvsNamespace
  /-- Result of `nvs_open("wifi_config", NVS_READONLY, ..)` in `wifi_credentials_exist`. -/
  exist_nvs_open : esp_err_t
  deriving DecidableEq, Repr

/-- Function `reset_wifi_credentials` (lines 125-133): the namespace it leaves. The
erase runs only when `nvs_open` returns `ESP_OK`. -/
def reset_wifi_credentials (env : BootEnv) (ns : NvsNamespace) : NvsNamespace :=
  if env.reset_nvs_open = ESP_OK then
    if env.nvs_erase_all = ESP_OK then [] else env.erase_failed_leaves
  else ns

/-- The two operating modes: the border router is launched, or the access point and
the provisioning server are started. -/
inductive Mode where
  | application
  | provisioning
  deriving DecidableEq, Repr

/-- The calls of lines 543-558 of `app_main`. -/
inductive BootCall where
  | reset_wifi_credentials
  | esp_br_web_start
  | launch_openthread_border_router
  | esp_event_handler_register
  | wifi_start_ap
  | start_http_server
  deriving DecidableEq, Repr

/-- The result of the bootstrap sequence: the branch taken, the namespace left, the
calls made. -/
structure Boot where
  mode : Mode
  nvs : NvsNamespace
  calls : List BootCall
  deriving DecidableEq, Repr

/-- Lines 543-558 of `app_main`, after `check_reset_button()` has returned `pressed`.
`start_web` is `CONFIG_OPENTHREAD_BR_START_WEB`. The checked calls inside the second
branch are recorded, not followed. -/
def app_main_select (pressed : Bool) (start_web : Bool) (env : BootEnv) (ns : NvsNamespace) :
    Boot :=
  -- if (check_reset_button()) reset_wifi_credentials();
  let ns1 := if pressed = true then reset_wifi_credentials env ns else ns
  let calls := if pressed = true then [BootCall.reset_wifi_credentials] else []
  if wifi_credentials_exist env.exist_nvs_open ns1 = true then
    ⟨.application, ns1,
      calls ++ (if start_web = true then [.esp_br_web_start] else []) ++
        [.launch_openthread_border_router]⟩
  else
    ⟨.provisioning, ns1,
      calls ++ [.esp_event_handler_register, .wifi_start_ap, .start_http_server]⟩

/-- Function `app_main` from line 543 on: the reset button is checked, then the mode is
chosen. `none` when `fuel` does not suffice for `check_reset_button`. -/
def app_main (fuel : Nat) (gpio_get_level : Nat → Nat) (start_web : Bool) (env : BootEnv)
    (ns : NvsNamespace) : Option Boot :=
  match check_reset_button fuel gpio_get_level with
  | none => none
  | some r => some (app_main_select r.pressed start_web env ns)

/-! ## Lemmas on `url_decode` -/

theorem c_str_nil : c_str [] = [] := rfl

theorem c_str_cons_zero (rest : List Nat) : c_str (0 :: rest) = [] := by
  simp [c_str]

theorem c_str_cons_ne (c : Nat) (rest : List Nat) (h : c ≠ 0) :
    c_str (c :: rest) = c :: c_str rest := by
  simp [c_str, List.takeWhile, h]

theorem isxdigit_ne_zero (a : Nat) (h : isxdigit a = true) : a ≠ 0 := by
  rintro rfl
  simp [isxdigit] at h

theorem hex_adjust_eq_hexval (a : Nat) (h : isxdigit a = true) :
    hex_adjust a = hexval a ∧ hexval a ≤ 15 := by
  simp only [isxdigit, Bool.or_eq_true, Bool.and_eq_true, decide_eq_true_eq] at h
  unfold hex_adjust hexval
  constructor
  · simp only []
    split_ifs <;> omega
  · split_ifs <;> omega

theorem url_decode_byte (a b : Nat) (ha : isxdigit a = true) (hb : isxdigit b = true) :
    (16 * hex_adjust a + hex_adjust b) % 256 = 16 * hexval a + hexval b := by
  obtain ⟨h1, h2⟩ := hex_adjust_eq_hexval a ha
  obtain ⟨h3, h4⟩ := hex_adjust_eq_hexval b hb
  rw [h1, h3]
  omega

theorem form_decode_cons_of_ne (c : Nat) (t : List Nat) (h : c ≠ 37) :
    form_decode (c :: t) = (if c = 43 then 32 else c) :: form_decode t := by
  match t with
  | [] => by_cases h43 : c = 43 <;> simp [form_decode, h43]
  | [d] => simp [form_decode]
  | a :: b :: r => simp [form_decode, h]

theorem form_decode_escape (a b : Nat) (r : List Nat)
    (ha : isxdigit a = true) (hb : isxdigit b = true) :
    form_decode (37 :: a :: b :: r) = (16 * hexval a + hexval b) :: form_decode r := by
  simp [form_decode, ha, hb]

theorem form_decode_literal (t : List Nat)
    (h : ∀ a b r, t = a :: b :: r → ¬ (isxdigit a = true ∧ isxdigit b = true)) :
    form_decode (37 :: t) = 37 :: form_decode t := by
  match t, h with
  | [], _ => simp [form_decode]
  | [d], _ => simp [form_decode]
  | a :: b :: r, h =>
    have h2 := h a b r rfl
    simp only [form_decode]
    rw [if_neg (by tauto)]
    simp

theorem url_decode_cons_zero (rest : List Nat) : url_decode (0 :: rest) = [] := by
  unfold url_decode
  simp

theorem url_decode_cons_other (c : Nat) (rest : List Nat) (h0 : c ≠ 0) (h : c ≠ 37) :
    url_decode (c :: rest) = (if c = 43 then 32 else c) :: url_decode rest := by
  conv_lhs => unfold url_decode
  by_cases h43 : c = 43 <;> simp [h0, h, h43]

theorem url_decode_eq_form_decode_aux :
    ∀ (n : Nat) (s : List Nat), s.length ≤ n → url_decode s = form_decode (c_str s) := by
  intro n
  induction n with
  | zero =>
    intro s hs
    have : s = [] := List.length_eq_zero.mp (Nat.le_zero.mp hs)
    subst this
    rfl
  | succ n ih =>
    intro s hs
    match s, hs with
    | [], _ => rfl
    | c :: rest, hs =>
      have hrest : rest.length ≤ n := by simpa using hs
      by_cases hc0 : c = 0
      · subst hc0
        simp [url_decode_cons_zero, c_str_cons_zero, form_decode]
      · rw [c_str_cons_ne c rest hc0]
        by_cases hc : c = 37
        · subst hc
          match rest, hrest with
          | [], _ => simp [url_decode, c_str_nil, form_decode]
          | [a], hrest =>
            have e : url_decode [37, a] = 37 :: url_decode [a] := by simp [url_decode]
            rw [e, ih [a] hrest]
            symm
            apply form_decode_literal
            intro a2 b2 r2 h2
            by_cases ha0 : a = 0
            · subst ha0
              simp [c_str_cons_zero] at h2
            · simp [c_str_cons_ne a [] ha0, c_str_nil] at h2
          | a :: b :: rest2, hrest =>
            by_cases hx : a ≠ 0 ∧ b ≠ 0 ∧ isxdigit a = true ∧ isxdigit b = true
            · obtain ⟨ha0, hb0, ha, hb⟩ := hx
              have e : url_decode (37 :: a :: b :: rest2)
                  = ((16 * hex_adjust a + hex_adjust b) % 256) :: url_decode rest2 := by
                simp [url_decode, ha0, hb0, ha, hb]
              rw [e, url_decode_byte a b ha hb, c_str_cons_ne a _ ha0, c_str_cons_ne b _ hb0,
                form_decode_escape a b _ ha hb, ih rest2 (by simp at hrest; omega)]
            · have e : url_decode (37 :: a :: b :: rest2)
                  = 37 :: url_decode (a :: b :: rest2) := by
                simp only [url_decode]
                simp [hx]
              rw [e, ih (a :: b :: rest2) hrest]
              symm
              apply form_decode_literal
              intro a2 b2 r2 h2 hxd
              apply hx
              by_cases ha0 : a = 0
              · subst ha0
                simp [c_str_cons_zero] at h2
              · rw [c_str_cons_ne a _ ha0] at h2
                by_cases hb0 : b = 0
                · subst hb0
                  simp [c_str_cons_zero] at h2
                · rw [c_str_cons_ne b _ hb0] at h2
                  simp only [List.cons.injEq] at h2
                  obtain ⟨rfl, rfl, _⟩ := h2
                  exact ⟨ha0, hb0, hxd.1, hxd.2⟩
        · rw [url_decode_cons_other c rest hc0 hc, ih rest hrest, form_decode_cons_of_ne c _ hc]

theorem url_decode_eq_form_decode (s : List Nat) : url_decode s = form_decode (c_str s) :=
  url_decode_eq_form_decode_aux s.length s (Nat.le_refl _)

theorem c_str_of_no_zero (s : List Nat) (h : ∀ c ∈ s, c ≠ 0) : c_str s = s := by
  unfold c_str
  rw [List.takeWhile_eq_self_iff]
  intro c hc
  simpa using h c hc

theorem form_decode_of_plain (s : List Nat) (hplus : 43 ∉ s)
    (hesc : ∀ i < s.length, s.getD i 0 = 37 →
      ¬ (isxdigit (s.getD (i + 1) 0) = true ∧ isxdigit (s.getD (i + 2) 0) = true)) :
    form_decode s = s := by
  induction s with
  | nil => rfl
  | cons c t ih =>
    have hc43 : c ≠ 43 := fun h => hplus (by simp [h])
    have ht : form_decode t = t := by
      apply ih
      · exact fun h => hplus (List.mem_cons_of_mem _ h)
      · intro i hi h37
        have := hesc (i + 1) (by simpa using hi) (by simpa using h37)
        simpa using this
    by_cases hc : c = 37
    · subst hc
      rw [form_decode_literal t, ht]
      intro a b r hr
      have := hesc 0 (by simp) (by simp)
      subst hr
      simpa using this
    · rw [form_decode_cons_of_ne c t hc, ht, if_neg hc43]

/-! ## Lemmas on `check_reset_button` -/

theorem check_reset_loop_spec (gpio_get_level : Nat → Nat) :
    ∀ (n k fuel : Nat), k + n = 30 → n + 1 ≤ fuel → (∀ j < k, gpio_get_level j ≠ 0) →
      ∃ r, check_reset_loop gpio_get_level fuel (100 * k) k k = some r ∧
        (r.pressed = true →
          1 ≤ r.samples ∧ r.samples ≤ 30 ∧ gpio_get_level (r.samples - 1) = 0 ∧
          (∀ j < r.samples - 1, gpio_get_level j ≠ 0) ∧ r.delays = r.samples - 1) ∧
        (r.pressed = false →
          r.samples = 30 ∧ r.delays = 30 ∧ ∀ j < 30, gpio_get_level j ≠ 0) := by
  intro n
  induction n with
  | zero =>
    intro k fuel hk hfuel hhigh
    have hk30 : k = 30 := by omega
    subst hk30
    obtain ⟨f, rfl⟩ : ∃ f, fuel = f + 1 := ⟨fuel - 1, by omega⟩
    refine ⟨⟨false, 30, 30⟩, ?_, ?_, ?_⟩
    · simp [check_reset_loop, RESET_HOLD_TIME_MS]
    · simp
    · intro _
      exact ⟨rfl, rfl, hhigh⟩
  | succ n ih =>
    intro k fuel hk hfuel hhigh
    obtain ⟨f, rfl⟩ : ∃ f, fuel = f + 1 := ⟨fuel - 1, by omega⟩
    have hlt : 100 * k < RESET_HOLD_TIME_MS := by
      unfold RESET_HOLD_TIME_MS
      omega
    by_cases hlow : gpio_get_level k = 0
    · refine ⟨⟨true, k + 1, k⟩, ?_, ?_, ?_⟩
      · simp [check_reset_loop, hlt, hlow]
      · intro _
        have hk30 : k + 1 ≤ 30 := by omega
        exact ⟨Nat.succ_pos k, hk30, by simpa using hlow, by simpa using hhigh, by simp⟩
      · simp
    · have hhigh2 : ∀ j < k + 1, gpio_get_level j ≠ 0 := by
        intro j hj
        rcases Nat.lt_succ_iff_lt_or_eq.mp hj with h | h
        · exact hhigh j h
        · rw [h]
          exact hlow
      obtain ⟨r, hr, hp⟩ := ih (k + 1) f (by omega) (by omega) hhigh2
      refine ⟨r, ?_, hp⟩
      rw [← hr]
      simp only [check_reset_loop, hlt, hlow, if_true, if_false]
      congr 1

/-! ## Lemmas on the body parser -/

theorem strstr_eq_none_iff (hay needle : List Nat) :
    strstr hay needle = none ↔ ¬ needle <:+: hay := by
  induction hay with
  | nil =>
    by_cases h : needle = [] <;> simp [strstr, h]
  | cons c cs ih =>
    by_cases hp : needle.isPrefixOf (c :: cs) = true
    · have hp2 : needle <+: c :: cs := List.isPrefixOf_iff_prefix.mp hp
      simp only [strstr, hp, if_true]
      constructor
      · intro h
        cases h
      · intro h
        exact absurd hp2.isInfix h
    · have hp2 : ¬ needle <+: c :: cs := fun h => hp (List.isPrefixOf_iff_prefix.mpr h)
      have e : strstr (c :: cs) needle = strstr cs needle := by
        simp only [strstr]
        rw [if_neg hp]
      rw [e, ih, List.infix_cons_iff]
      tauto

theorem strstr_at_start (needle rest : List Nat) (h : needle ≠ []) :
    strstr (needle ++ rest) needle = some (needle ++ rest) := by
  match needle, h with
  | c :: cs, _ =>
    have hp : (c :: cs).isPrefixOf (c :: cs ++ rest) = true :=
      List.isPrefixOf_iff_prefix.mpr (List.prefix_append _ _)
    simp only [List.cons_append] at hp ⊢
    simp only [strstr, hp, if_true]

theorem strchr_eq_none_iff (s : List Nat) (ch : Nat) : strchr s ch = none ↔ ch ∉ s := by
  induction s with
  | nil => simp [strchr]
  | cons c cs ih =>
    by_cases h : c = ch
    · simp [strchr, h]
    · have h2 : ¬ ch = c := fun e => h e.symm
      simp [strchr, h, h2, ih]

theorem strchr_append (v rest : List Nat) (ch : Nat) (h : ch ∉ v) :
    strchr (v ++ ch :: rest) ch = some (ch :: rest) := by
  induction v with
  | nil => simp [strchr]
  | cons c cs ih =>
    have hc : ¬ c = ch := fun e => h (by simp [e])
    have hcs : ch ∉ cs := fun e => h (List.mem_cons_of_mem _ e)
    simp [strchr, hc, ih hcs]

theorem bytes_ssid : bytes "ssid=" = [115, 115, 105, 100, 61] := by decide

theorem bytes_password : bytes "password=" = [112, 97, 115, 115, 119, 111, 114, 100, 61] := by
  decide

/-- The parser on a body `ssid=<v>&password=<pw>` whose `<v>` has no `&`. -/
theorem parse_connect_body_form (v pw : List Nat) (hv : 38 ∉ v) :
    parse_connect_body (bytes "ssid=" ++ v ++ 38 :: (bytes "password=" ++ pw))
      = .ok (v, pw) := by
  unfold parse_connect_body
  rw [List.append_assoc, strstr_at_start _ _ (by decide)]
  have e1 : (bytes "ssid=" ++ (v ++ 38 :: (bytes "password=" ++ pw))).drop 5
      = v ++ 38 :: (bytes "password=" ++ pw) := by
    rw [bytes_ssid]
    rfl
  simp only [e1]
  rw [strchr_append v _ 38 hv]
  simp only [List.drop_succ_cons, List.drop_zero]
  rw [strstr_at_start _ _ (by decide)]
  have e2 : (bytes "password=" ++ pw).drop 9 = pw := by
    rw [bytes_password]
    rfl
  simp only [e2]
  have e3 : (v ++ 38 :: (bytes "password=" ++ pw)).take
      ((v ++ 38 :: (bytes "password=" ++ pw)).length - (38 :: (bytes "password=" ++ pw)).length)
      = v := by
    simp
  rw [e3]

/-- A rejected body: no `ssid=`; or no `&` after the first `ssid=`; or no `password=`
after the first `&` that follows the first `ssid=`. -/
theorem parse_connect_body_error (buf : List Nat)
    (h : ¬ (bytes "ssid=" <:+: buf) ∨
      (∃ p, strstr buf (bytes "ssid=") = some p ∧ 38 ∉ p.drop 5) ∨
      (∃ p v rest, strstr buf (bytes "ssid=") = some p ∧ p.drop 5 = v ++ 38 :: rest ∧
        38 ∉ v ∧ ¬ (bytes "password=" <:+: rest))) :
    ∃ msg, parse_connect_body buf = .error msg := by
  unfold parse_connect_body
  rcases h with h | ⟨p, hp, h⟩ | ⟨p, v, rest, hp, hv, h38, h⟩
  · rw [(strstr_eq_none_iff _ _).mpr h]
    exact ⟨_, rfl⟩
  · rw [hp]
    simp only []
    rw [(strchr_eq_none_iff _ _).mpr h]
    exact ⟨_, rfl⟩
  · rw [hp]
    simp only []
    rw [hv, strchr_append v rest 38 h38]
    simp only [List.drop_succ_cons, List.drop_zero]
    rw [(strstr_eq_none_iff _ _).mpr h]
    exact ⟨_, rfl⟩

/-! ## Lemmas on the credential store -/

theorem credentials_exist_iff (nvs_open_err : esp_err_t) (ns : NvsNamespace) :
    wifi_credentials_exist nvs_open_err ns = true ↔
      nvs_open_err = ESP_OK ∧ ∃ v, ns.lookup "ssid" = some v ∧ 1 ≤ v.length := by
  unfold wifi_credentials_exist nvs_get_str
  by_cases h : nvs_open_err = ESP_OK
  · cases hl : ns.lookup "ssid" with
    | none => simp [h]
    | some v =>
      cases v with
      | nil => simp [h]
      | cons c t => simp [h]
  · simp [h]

/-! ## Lemmas on the connect handler -/

@[simp] theorem call_trace (w : World) (a : Action) : (w.call a).trace = w.trace ++ [a] := rfl
@[simp] theorem call_st (w : World) (a : Action) : (w.call a).st = w.st := rfl
@[simp] theorem set_semaphore_trace (w : World) (h : Option Nat) :
    (w.set_semaphore h).trace = w.trace := rfl
@[simp] theorem set_semaphore_sem (w : World) (h : Option Nat) :
    (w.set_semaphore h).st.wifi_connect_semaphore = h := rfl
@[simp] theorem set_semaphore_success (w : World) (h : Option Nat) :
    (w.set_semaphore h).st.wifi_connect_success = w.st.wifi_connect_success := rfl
@[simp] theorem set_semaphore_nvs (w : World) (h : Option Nat) :
    (w.set_semaphore h).st.nvs = w.st.nvs := rfl
@[simp] theorem set_success_trace (w : World) (b : Bool) :
    (w.set_success b).trace = w.trace := rfl
@[simp] theorem set_success_sem (w : World) (b : Bool) :
    (w.set_success b).st.wifi_connect_semaphore = w.st.wifi_connect_semaphore := rfl
@[simp] theorem set_success_success (w : World) (b : Bool) :
    (w.set_success b).st.wifi_connect_success = b := rfl
@[simp] theorem set_success_nvs (w : World) (b : Bool) :
    (w.set_success b).st.nvs = w.st.nvs := rfl
@[simp] theorem set_nvs_trace (w : World) (ns : NvsNamespace) :
    (w.set_nvs ns).trace = w.trace := rfl
@[simp] theorem set_nvs_sem (w : World) (ns : NvsNamespace) :
    (w.set_nvs ns).st.wifi_connect_semaphore = w.st.wifi_connect_semaphore := rfl
@[simp] theorem set_nvs_success (w : World) (ns : NvsNamespace) :
    (w.set_nvs ns).st.wifi_connect_success = w.st.wifi_connect_success := rfl
@[simp] theorem set_nvs_nvs (w : World) (ns : NvsNamespace) : (w.set_nvs ns).st.nvs = ns := rfl
@[simp] theorem send_json_trace (w : World) (body : String) :
    (send_json w body).trace
      = w.trace ++ [.httpd_resp_set_type "application/json", .httpd_resp_sendstr body] := by
  simp [send_json]
@[simp] theorem send_json_st (w : World) (body : String) : (send_json w body).st = w.st := rfl
@[simp] theorem finish_outcome (w : World) (o : Outcome) : (w.finish o).outcome = o := rfl
@[simp] theorem finish_st (w : World) (o : Outcome) : (w.finish o).st = w.st := rfl
@[simp] theorem finish_trace (w : World) (o : Outcome) : (w.finish o).trace = w.trace := rfl

theorem event_handler_trace (w : World) :
    (wifi_connect_event_handler w).trace
      = w.trace ++ (match w.st.wifi_connect_semaphore with
          | some sem => [.xSemaphoreGive sem]
          | none => []) := by
  unfold wifi_connect_event_handler
  cases w.st.wifi_connect_semaphore <;> simp

@[simp] theorem event_handler_sem (w : World) :
    (wifi_connect_event_handler w).st.wifi_connect_semaphore = w.st.wifi_connect_semaphore := by
  unfold wifi_connect_event_handler
  cases h : w.st.wifi_connect_semaphore <;> simp [h]

@[simp] theorem event_handler_nvs (w : World) :
    (wifi_connect_event_handler w).st.nvs = w.st.nvs := by
  unfold wifi_connect_event_handler
  cases h : w.st.wifi_connect_semaphore <;> simp

/-- What `save_credentials` appends to the trace: NVS calls only. -/
theorem save_credentials_trace (w : World) (a b : List Nat) (env : Env) :
    ∃ tail, (save_credentials w a b env).1.trace = w.trace ++ tail ∧
      ∀ x ∈ tail, x = .nvs_open ∨ x = .nvs_commit ∨ x = .nvs_close ∨
        ∃ k v, x = .nvs_set_str k v := by
  unfold save_credentials
  simp only []
  split_ifs
  all_goals
    simp only [call_trace, set_nvs_trace, List.append_assoc]
    refine ⟨_, rfl, ?_⟩
    simp

theorem save_credentials_sem (w : World) (a b : List Nat) (env : Env) :
    (save_credentials w a b env).1.st.wifi_connect_semaphore = w.st.wifi_connect_semaphore := by
  unfold save_credentials
  simp only []
  split_ifs <;> simp

theorem event_handler_of_some (w : World) (sem : Nat)
    (h : w.st.wifi_connect_semaphore = some sem) :
    wifi_connect_event_handler w = (w.set_success true).call (.xSemaphoreGive sem) := by
  unfold wifi_connect_event_handler
  rw [h]

theorem semaphore_available_append (t : List Action) (a : Action) (sem : Nat) :
    semaphore_available (t ++ [a]) sem = semaphore_step sem (semaphore_available t sem) a := by
  simp [semaphore_available, List.foldl_append]

theorem responses_append (t1 t2 : List Action) :
    responses (t1 ++ t2) = responses t1 ++ responses t2 := by
  simp [responses]

theorem save_credentials_count (w : World) (a b : List Nat) (env : Env) (sem : Nat) :
    (save_credentials w a b env).1.trace.count (.vSemaphoreDelete sem)
      = w.trace.count (.vSemaphoreDelete sem) := by
  obtain ⟨tail, ht, hx⟩ := save_credentials_trace w a b env
  rw [ht, List.count_append]
  have : tail.count (.vSemaphoreDelete sem) = 0 := by
    rw [List.count_eq_zero]
    intro hmem
    rcases hx _ hmem with h | h | h | ⟨k, v, h⟩ <;> cases h
  omega

theorem save_credentials_mem_create (w : World) (a b : List Nat) (env : Env)
    (r : Option Nat) :
    .xSemaphoreCreateBinary r ∈ (save_credentials w a b env).1.trace ↔
      .xSemaphoreCreateBinary r ∈ w.trace := by
  obtain ⟨tail, ht, hx⟩ := save_credentials_trace w a b env
  rw [ht, List.mem_append]
  constructor
  · rintro (h | h)
    · exact h
    · rcases hx _ h with h | h | h | ⟨k, v, h⟩ <;> cases h
  · exact Or.inl

theorem save_credentials_responses (w : World) (a b : List Nat) (env : Env) :
    responses (save_credentials w a b env).1.trace = responses w.trace := by
  obtain ⟨tail, ht, hx⟩ := save_credentials_trace w a b env
  rw [ht, responses_append]
  have : responses tail = [] := by
    unfold responses
    rw [List.filter_eq_nil_iff]
    intro x hmem
    rcases hx _ hmem with h | h | h | ⟨k, v, h⟩ <;> subst h <;> simp
  rw [this, List.append_nil]

theorem event_handler_count (w : World) (sem : Nat) :
    (wifi_connect_event_handler w).trace.count (.vSemaphoreDelete sem)
      = w.trace.count (.vSemaphoreDelete sem) := by
  rw [event_handler_trace]
  cases w.st.wifi_connect_semaphore <;> simp

theorem event_handler_mem_create (w : World) (r : Option Nat) :
    .xSemaphoreCreateBinary r ∈ (wifi_connect_event_handler w).trace ↔
      .xSemaphoreCreateBinary r ∈ w.trace := by
  rw [event_handler_trace]
  cases w.st.wifi_connect_semaphore <;> simp

theorem event_handler_responses (w : World) :
    responses (wifi_connect_event_handler w).trace = responses w.trace := by
  rw [event_handler_trace]
  cases w.st.wifi_connect_semaphore <;> simp [responses]

/-! ### Deletion of the semaphore -/

theorem wait_deleted_once (w : World) (sem : Nat) (ds dp : List Nat) (env : Env)
    (code : esp_err_t)
    (hret : (wifi_connect_wait w sem ds dp env).outcome = .returned code) :
    (wifi_connect_wait w sem ds dp env).trace.count (.vSemaphoreDelete sem)
      = w.trace.count (.vSemaphoreDelete sem) + 1 ∧
    (wifi_connect_wait w sem ds dp env).st.wifi_connect_semaphore = none := by
  revert hret
  unfold wifi_connect_wait
  simp only []
  split_ifs <;>
    simp [save_credentials_count, save_credentials_sem, event_handler_count]

theorem join_deleted_once (st : State) (ds dp : List Nat) (env : Env) (sem : Nat)
    (code : esp_err_t)
    (hsem : env.xSemaphoreCreateBinary = some sem)
    (hret : (wifi_connect_join st ds dp env).outcome = .returned code) :
    (wifi_connect_join st ds dp env).trace.count (.vSemaphoreDelete sem) = 1 ∧
    (wifi_connect_join st ds dp env).st.wifi_connect_semaphore = none := by
  revert hret
  unfold wifi_connect_join
  simp only [hsem]
  by_cases hcfg : env.esp_wifi_set_config = ESP_OK
  · by_cases hco : env.esp_wifi_connect = ESP_OK
    · simp only [hcfg, hco, ne_eq, not_true_eq_false, if_false]
      intro hret
      obtain ⟨h1, h2⟩ := wait_deleted_once _ _ _ _ _ _ hret
      refine ⟨?_, h2⟩
      rw [h1]
      split_ifs <;> simp [event_handler_count]
    · simp only [hcfg, hco, ne_eq, not_true_eq_false, not_false_eq_true, if_false, if_true]
      intro _
      split_ifs <;> simp [event_handler_count]
  · simp only [hcfg, ne_eq, not_false_eq_true, if_true]
    intro hret
    simp at hret

theorem wait_mem_create (w : World) (sem : Nat) (ds dp : List Nat) (env : Env)
    (r : Option Nat) :
    .xSemaphoreCreateBinary r ∈ (wifi_connect_wait w sem ds dp env).trace ↔
      .xSemaphoreCreateBinary r ∈ w.trace := by
  unfold wifi_connect_wait
  simp only []
  split_ifs <;> simp [save_credentials_mem_create, event_handler_mem_create]

theorem join_mem_create (st : State) (ds dp : List Nat) (env : Env) (r : Option Nat)
    (h : .xSemaphoreCreateBinary r ∈ (wifi_connect_join st ds dp env).trace) :
    r = env.xSemaphoreCreateBinary := by
  revert h
  unfold wifi_connect_join
  cases hc : env.xSemaphoreCreateBinary with
  | none =>
    simp only []
    split_ifs <;> simp
  | some sem =>
    simp only []
    split_ifs <;> simp [wait_mem_create, event_handler_mem_create]

theorem handler_of_parse_error (st : State) (req : Request) (env : Env) (msg : String)
    (hret : ¬ req.ret ≤ 0)
    (hp : parse_connect_body (c_str (req.buf.take req.ret.toNat)) = .error msg) :
    wifi_connect_handler st req env
      = ⟨.returned ESP_FAIL, st, [.httpd_resp_send_err 400 msg]⟩ := by
  unfold wifi_connect_handler
  rw [if_neg hret]
  simp only [hp]

theorem handler_of_parse_ok (st : State) (req : Request) (env : Env) (ssid password : List Nat)
    (hret : ¬ req.ret ≤ 0)
    (hp : parse_connect_body (c_str (req.buf.take req.ret.toNat)) = .ok (ssid, password)) :
    wifi_connect_handler st req env
      = if (url_decode_written ssid).length > 32 ∨ (url_decode_written password).length > 64
        then ⟨.undefined, st, []⟩
        else wifi_connect_join st (url_decode_written ssid) (url_decode_written password) env := by
  unfold wifi_connect_handler
  rw [if_neg hret]
  simp only [hp]

/-- The handler either stops before line 253 with at most one call, a 400 response, or
continues with `wifi_connect_join` on the two decoded buffers. -/
theorem handler_cases (st : State) (req : Request) (env : Env) :
    ((wifi_connect_handler st req env).trace = [] ∧
      (wifi_connect_handler st req env).outcome = .undefined) ∨
    (∃ msg, (wifi_connect_handler st req env).trace = [.httpd_resp_send_err 400 msg]) ∨
    (∃ ds dp, wifi_connect_handler st req env = wifi_connect_join st ds dp env) := by
  by_cases hret : req.ret ≤ 0
  · refine Or.inr (Or.inl ⟨"Invalid request", ?_⟩)
    unfold wifi_connect_handler
    rw [if_pos hret]
  · cases hp : parse_connect_body (c_str (List.take req.ret.toNat req.buf)) with
    | error msg =>
      rw [handler_of_parse_error st req env msg hret hp]
      exact Or.inr (Or.inl ⟨msg, rfl⟩)
    | ok v =>
      obtain ⟨ssid, password⟩ := v
      rw [handler_of_parse_ok st req env ssid password hret hp]
      split_ifs
      · exact Or.inl ⟨rfl, rfl⟩
      · exact Or.inr (Or.inr ⟨_, _, rfl⟩)

/-! ### A join that does not succeed -/

theorem resp_semaphore_error_status : json_status_is "error" resp_semaphore_error = true := by
  decide

theorem resp_connect_error_status : json_status_is "error" resp_connect_error = true := by
  decide

theorem resp_join_error_status : json_status_is "error" resp_join_error = true := by decide

theorem resp_timeout_error_status : json_status_is "error" resp_timeout_error = true := by
  decide

theorem resp_success_status : json_status_is "success" resp_success = true := by decide

theorem wait_fail (w : World) (sem : Nat) (ds dp : List Nat) (env : Env)
    (hflag : w.st.wifi_connect_success = false)
    (hno : env.connected_before_timeout = false) :
    (wifi_connect_wait w sem ds dp env).outcome = .returned ESP_OK ∧
    (wifi_connect_wait w sem ds dp env).st.nvs = w.st.nvs ∧
    ∃ tail body, (wifi_connect_wait w sem ds dp env).trace
        = w.trace ++ tail ++ [.httpd_resp_set_type "application/json", .httpd_resp_sendstr body] ∧
      responses tail = [] ∧ json_status_is "error" body = true := by
  unfold wifi_connect_wait
  simp only [hno, Bool.false_eq_true, if_false]
  by_cases havail : semaphore_available w.trace sem = true
  · simp only [havail, if_true, call_st, set_semaphore_success, hflag, Bool.false_eq_true,
      if_false]
    refine ⟨rfl, rfl, [.xSemaphoreTake sem WIFI_CONNECT_TIMEOUT_MS true, .vSemaphoreDelete sem],
      resp_join_error, by simp, by simp [responses], resp_join_error_status⟩
  · simp only [havail, if_false]
    refine ⟨rfl, rfl, [.xSemaphoreTake sem WIFI_CONNECT_TIMEOUT_MS false, .esp_wifi_disconnect,
      .vSemaphoreDelete sem], resp_timeout_error, by simp, by simp [responses],
      resp_timeout_error_status⟩

theorem event_handler_success (w : World) (sem : Nat)
    (h : w.st.wifi_connect_semaphore = some sem) :
    (wifi_connect_event_handler w).st.wifi_connect_success = true := by
  rw [event_handler_of_some w sem h]
  rfl

theorem event_handler_available (w : World) (sem : Nat)
    (h : w.st.wifi_connect_semaphore = some sem) :
    semaphore_available (wifi_connect_event_handler w).trace sem = true := by
  rw [event_handler_of_some w sem h, call_trace, semaphore_available_append]
  simp [semaphore_step]

/-- With the semaphore created, the configuration accepted and the join issued, the
handler reaches the wait of line 292 in a world that has answered nothing yet. -/
theorem join_reaches_wait (st : State) (ds dp : List Nat) (env : Env) (sem : Nat)
    (hc : env.xSemaphoreCreateBinary = some sem)
    (hcfg : env.esp_wifi_set_config = ESP_OK)
    (hco : env.esp_wifi_connect = ESP_OK) :
    ∃ w, wifi_connect_join st ds dp env = wifi_connect_wait w sem ds dp env ∧
      w.st.wifi_connect_semaphore = some sem ∧
      w.st.nvs = st.nvs ∧
      responses w.trace = [] ∧
      w.st.wifi_connect_success = env.connected_after_clear ∧
      (env.connected_after_clear = true → semaphore_available w.trace sem = true) ∧
      w.trace.head? = some .esp_wifi_disconnect ∧
      .xSemaphoreCreateBinary (some sem) ∈ w.trace ∧
      .esp_wifi_set_config (strncpy ds 32) (strncpy dp 64) ∈ w.trace ∧
      .esp_wifi_connect ∈ w.trace := by
  unfold wifi_connect_join
  simp only [hc, hcfg, hco, ne_eq, not_true_eq_false, if_false]
  refine ⟨_, rfl, ?_, ?_, ?_, ?_, ?_, ?_, ?_, ?_, ?_⟩
  · split_ifs <;> simp
  · split_ifs <;> simp
  · split_ifs <;> simp [responses_append, event_handler_responses] <;> simp [responses]
  · by_cases h : env.connected_after_clear = true
    · simp only [h, if_true]
      apply event_handler_success _ sem
      split_ifs <;> simp
    · have h2 : env.connected_after_clear = false := by simpa using h
      simp [h2]
  · intro h
    simp only [h, if_true]
    apply event_handler_available _ sem
    split_ifs <;> simp
  · split_ifs <;> simp [World.call, event_handler_trace]
  · split_ifs <;> simp [event_handler_trace]
  · split_ifs <;> simp [event_handler_trace]
  · split_ifs <;> simp [event_handler_trace]

theorem join_fail (st : State) (ds dp : List Nat) (env : Env)
    (hcfg : env.esp_wifi_set_config = ESP_OK)
    (hfail : env.esp_wifi_connect ≠ ESP_OK ∨
      (env.connected_after_clear = false ∧ env.connected_before_timeout = false)) :
    (∃ code, (wifi_connect_join st ds dp env).outcome = .returned code) ∧
    (wifi_connect_join st ds dp env).st.nvs = st.nvs ∧
    ∃ pre body, (wifi_connect_join st ds dp env).trace
        = pre ++ [.httpd_resp_set_type "application/json", .httpd_resp_sendstr body] ∧
      responses pre = [] ∧ json_status_is "error" body = true := by
  cases hc : env.xSemaphoreCreateBinary with
  | none =>
    unfold wifi_connect_join
    simp only [hc]
    refine ⟨⟨_, rfl⟩, ?_, ?_⟩
    · split_ifs <;> rfl
    · refine ⟨_, resp_semaphore_error, by rw [finish_trace, send_json_trace], ?_,
        resp_semaphore_error_status⟩
      split_ifs <;> simp [responses]
  | some sem =>
    by_cases hco : env.esp_wifi_connect = ESP_OK
    · obtain ⟨h1, h2⟩ := hfail.resolve_left (fun h => h hco)
      obtain ⟨w, hw, _, hnvs, hresp, hflag, _⟩ := join_reaches_wait st ds dp env sem hc hcfg hco
      obtain ⟨ho, hn, tail, body, ht, hr, hb⟩ :=
        wait_fail w sem ds dp env (by rw [hflag, h1]) h2
      rw [hw]
      refine ⟨⟨_, ho⟩, hn.trans hnvs, _, body, ht, ?_, hb⟩
      rw [responses_append, hr, hresp]
      rfl
    · unfold wifi_connect_join
      simp only [hc, hcfg, hco, ne_eq, not_true_eq_false, not_false_eq_true, if_false, if_true]
      refine ⟨⟨_, rfl⟩, ?_, ?_⟩
      · split_ifs <;> simp
      · refine ⟨_, resp_connect_error, by rw [finish_trace, send_json_trace], ?_,
          resp_connect_error_status⟩
        split_ifs <;> simp [responses_append, event_handler_responses] <;> simp [responses]

/-! ### A join that succeeds -/

theorem save_credentials_ok (w : World) (ds dp : List Nat) (env : Env)
    (h1 : env.nvs_open = ESP_OK) (h2 : env.nvs_set_str_ssid = ESP_OK)
    (h3 : env.nvs_set_str_password = ESP_OK) (h4 : env.nvs_commit = ESP_OK) :
    (save_credentials w ds dp env).2 = true ∧
    (save_credentials w ds dp env).1.st.nvs
      = nvs_set_str (nvs_set_str w.st.nvs "ssid" ds) "password" dp := by
  simp [save_credentials, h1, h2, h3, h4]

theorem wait_success (w : World) (sem : Nat) (ds dp : List Nat) (env : Env)
    (hsem : w.st.wifi_connect_semaphore = some sem)
    (h : (w.st.wifi_connect_success = true ∧ semaphore_available w.trace sem = true) ∨
      env.connected_before_timeout = true)
    (h1 : env.nvs_open = ESP_OK) (h2 : env.nvs_set_str_ssid = ESP_OK)
    (h3 : env.nvs_set_str_password = ESP_OK) (h4 : env.nvs_commit = ESP_OK) :
    (wifi_connect_wait w sem ds dp env).outcome = .returned ESP_OK ∧
    (wifi_connect_wait w sem ds dp env).st.nvs
      = nvs_set_str (nvs_set_str w.st.nvs "ssid" ds) "password" dp ∧
    responses (wifi_connect_wait w sem ds dp env).trace
      = responses w.trace ++ [.httpd_resp_sendstr resp_success] := by
  unfold wifi_connect_wait
  by_cases hb : env.connected_before_timeout = true
  · have ha := event_handler_available w sem hsem
    have hs := event_handler_success w sem hsem
    simp only [hb, if_true, ha, call_st, set_semaphore_success, hs,
      (save_credentials_ok _ ds dp env h1 h2 h3 h4).1]
    refine ⟨rfl, ?_, ?_⟩
    · rw [finish_st, send_json_st, (save_credentials_ok _ ds dp env h1 h2 h3 h4).2]
      simp
    · simp [responses_append, save_credentials_responses, event_handler_responses]
      simp [responses]
  · obtain ⟨hf, ha⟩ := h.resolve_right hb
    simp only [hb, Bool.false_eq_true, if_false, ha, call_st, set_semaphore_success, hf, if_true,
      (save_credentials_ok _ ds dp env h1 h2 h3 h4).1]
    refine ⟨rfl, ?_, ?_⟩
    · rw [finish_st, send_json_st, (save_credentials_ok _ ds dp env h1 h2 h3 h4).2]
      simp
    · simp [responses_append, save_credentials_responses]
      simp [responses]

theorem join_success (st : State) (ds dp : List Nat) (env : Env) (sem : Nat)
    (hc : env.xSemaphoreCreateBinary = some sem)
    (hcfg : env.esp_wifi_set_config = ESP_OK)
    (hco : env.esp_wifi_connect = ESP_OK)
    (hn : env.connected_after_clear = true ∨ env.connected_before_timeout = true)
    (h1 : env.nvs_open = ESP_OK) (h2 : env.nvs_set_str_ssid = ESP_OK)
    (h3 : env.nvs_set_str_password = ESP_OK) (h4 : env.nvs_commit = ESP_OK) :
    (wifi_connect_join st ds dp env).outcome = .returned ESP_OK ∧
    (wifi_connect_join st ds dp env).st.nvs
      = nvs_set_str (nvs_set_str st.nvs "ssid" ds) "password" dp ∧
    responses (wifi_connect_join st ds dp env).trace = [.httpd_resp_sendstr resp_success] := by
  obtain ⟨w, hw, hsem, hnvs, hresp, hflag, havail, _⟩ :=
    join_reaches_wait st ds dp env sem hc hcfg hco
  have h : (w.st.wifi_connect_success = true ∧ semaphore_available w.trace sem = true) ∨
      env.connected_before_timeout = true := by
    rcases hn with h | h
    · exact Or.inl ⟨by rw [hflag, h], havail h⟩
    · exact Or.inr h
  obtain ⟨e1, e2, e3⟩ := wait_success w sem ds dp env hsem h h1 h2 h3 h4
  rw [hw]
  refine ⟨e1, by rw [e2, hnvs], ?_⟩
  rw [e3, hresp]
  rfl

theorem c_str_append_zero (l : List Nat) : c_str (l ++ [0]) = c_str l := by
  induction l with
  | nil => simp [c_str]
  | cons c t ih =>
    by_cases h : c = 0
    · subst h
      simp [c_str]
    · rw [List.cons_append, c_str_cons_ne c _ h, c_str_cons_ne c _ h, ih]

theorem nvs_lookup_after_save (ns : NvsNamespace) (ds dp : List Nat) :
    (nvs_set_str (nvs_set_str ns "ssid" ds) "password" dp).lookup "ssid" = some (c_str ds) ∧
    (nvs_set_str (nvs_set_str ns "ssid" ds) "password" dp).lookup "password"
      = some (c_str dp) := by
  simp [nvs_set_str, List.lookup, List.filter]

/-! ### The handle found at entry -/

theorem join_handle_irrelevant (st : State) (h : Option Nat) (ds dp : List Nat) (env : Env) :
    wifi_connect_join { st with wifi_connect_semaphore := h } ds dp env
      = wifi_connect_join st ds dp env := by
  unfold wifi_connect_join
  have key : ∀ (w1 w2 : World) (x : Option Nat), w1.trace = w2.trace →
      w1.st.wifi_connect_success = w2.st.wifi_connect_success → w1.st.nvs = w2.st.nvs →
      w1.set_semaphore x = w2.set_semaphore x := by
    intro w1 w2 x e1 e2 e3
    obtain ⟨⟨a1, b1, c1⟩, t1⟩ := w1
    obtain ⟨⟨a2, b2, c2⟩, t2⟩ := w2
    simp only at e1 e2 e3
    subst e1 e2 e3
    rfl
  have e : ∀ x : Option Nat,
      ((if env.esp_wifi_disconnect ≠ ESP_OK ∧ env.esp_wifi_disconnect ≠ ESP_ERR_WIFI_NOT_STARTED
          then (World.call ⟨{ st with wifi_connect_semaphore := h }, []⟩
            .esp_wifi_disconnect).call .log_warning
          else World.call ⟨{ st with wifi_connect_semaphore := h }, []⟩
            .esp_wifi_disconnect).call (.xSemaphoreCreateBinary x)).set_semaphore x
      = ((if env.esp_wifi_disconnect ≠ ESP_OK ∧ env.esp_wifi_disconnect ≠ ESP_ERR_WIFI_NOT_STARTED
          then (World.call ⟨st, []⟩ .esp_wifi_disconnect).call .log_warning
          else World.call ⟨st, []⟩ .esp_wifi_disconnect).call
            (.xSemaphoreCreateBinary x)).set_semaphore x := by
    intro x
    apply key <;> split_ifs <;> rfl
  simp only [e]

theorem save_credentials_trace_eq (w : World) (ds dp : List Nat) (env : Env) :
    (save_credentials w ds dp env).1.trace
      = w.trace ++ (save_credentials w ds dp env).1.trace.drop w.trace.length := by
  obtain ⟨tail, ht, _⟩ := save_credentials_trace w ds dp env
  rw [ht]
  simp

theorem wait_trace_extends (w : World) (sem : Nat) (ds dp : List Nat) (env : Env) :
    ∃ tail, (wifi_connect_wait w sem ds dp env).trace = w.trace ++ tail := by
  unfold wifi_connect_wait
  simp only []
  split_ifs
  all_goals
    simp only [finish_trace, send_json_trace]
    try rw [save_credentials_trace_eq]
    simp only [call_trace, set_semaphore_trace, event_handler_trace, List.append_assoc]
    exact ⟨_, rfl⟩

theorem wait_final_handle (w : World) (sem : Nat) (ds dp : List Nat) (env : Env) :
    (wifi_connect_wait w sem ds dp env).st.wifi_connect_semaphore = none := by
  unfold wifi_connect_wait
  simp only []
  split_ifs <;> simp [save_credentials_sem]

/-- The calls every run of lines 253-320 makes: `esp_wifi_disconnect` first, then
`xSemaphoreCreateBinary`, then, with a semaphore, `esp_wifi_set_config`; the handle
left behind is NULL or the created semaphore. -/
theorem join_calls (st : State) (ds dp : List Nat) (env : Env) :
    (wifi_connect_join st ds dp env).trace.head? = some .esp_wifi_disconnect ∧
    .xSemaphoreCreateBinary env.xSemaphoreCreateBinary ∈ (wifi_connect_join st ds dp env).trace ∧
    (env.xSemaphoreCreateBinary ≠ none →
      .esp_wifi_set_config (strncpy ds 32) (strncpy dp 64)
        ∈ (wifi_connect_join st ds dp env).trace) ∧
    (env.xSemaphoreCreateBinary ≠ none → env.esp_wifi_set_config = ESP_OK →
      .esp_wifi_connect ∈ (wifi_connect_join st ds dp env).trace) ∧
    ((wifi_connect_join st ds dp env).st.wifi_connect_semaphore = none ∨
      (wifi_connect_join st ds dp env).st.wifi_connect_semaphore
        = env.xSemaphoreCreateBinary) := by
  cases hc : env.xSemaphoreCreateBinary with
  | none =>
    unfold wifi_connect_join
    simp only [hc]
    refine ⟨?_, ?_, ?_, ?_, ?_⟩
    · split_ifs <;> simp [World.call]
    · split_ifs <;> simp
    · simp
    · simp
    · simp
  | some sem =>
    by_cases hcfg : env.esp_wifi_set_config = ESP_OK
    · by_cases hco : env.esp_wifi_connect = ESP_OK
      · obtain ⟨w, hw, hsem, _, _, _, _, hhd, hcr, hs, hj⟩ :=
          join_reaches_wait st ds dp env sem hc hcfg hco
        obtain ⟨tail, ht⟩ := wait_trace_extends w sem ds dp env
        rw [hw]
        refine ⟨?_, ?_, ?_, ?_, Or.inl (wait_final_handle w sem ds dp env)⟩
        · rw [ht]
          cases hwt : w.trace with
          | nil =>
            rw [hwt] at hhd
            cases hhd
          | cons a t =>
            rw [hwt] at hhd
            simpa using hhd
        · rw [ht]
          exact List.mem_append_left _ hcr
        · intro _
          rw [ht]
          exact List.mem_append_left _ hs
        · intro _ _
          rw [ht]
          exact List.mem_append_left _ hj
      · unfold wifi_connect_join
        simp only [hc, hcfg, hco, ne_eq, not_true_eq_false, not_false_eq_true, if_false, if_true]
        refine ⟨?_, ?_, ?_, ?_, ?_⟩
        · split_ifs <;> simp [World.call, event_handler_trace]
        · split_ifs <;> simp [event_handler_trace]
        · intro _
          split_ifs <;> simp [event_handler_trace]
        · intro _ _
          split_ifs <;> simp [event_handler_trace]
        · simp
    · unfold wifi_connect_join
      simp only [hc, hcfg, ne_eq, not_false_eq_true, if_true]
      refine ⟨?_, ?_, ?_, ?_, ?_⟩
      · split_ifs <;> simp [World.call, event_handler_trace]
      · split_ifs <;> simp [event_handler_trace]
      · intro _
        split_ifs <;> simp [event_handler_trace]
      · intro _ h
        exact False.elim h
      · right
        split_ifs <;> simp

theorem handler_in_limits (st : State) (req : Request) (env : Env) (ssid password : List Nat)
    (hret : 0 < req.ret)
    (hparse : parse_connect_body (c_str (req.buf.take req.ret.toNat)) = .ok (ssid, password))
    (hssid : (url_decode ssid).length < 32) (hpw : (url_decode password).length < 64) :
    wifi_connect_handler st req env
      = wifi_connect_join st (url_decode_written ssid) (url_decode_written password) env := by
  rw [handler_of_parse_ok st req env ssid password (by omega) hparse, if_neg]
  simp only [url_decode_written, List.length_append, List.length_singleton]
  omega

theorem c_str_body (v pw : List Nat) (hv : ∀ c ∈ v, c ≠ 0) (hpw : ∀ c ∈ pw, c ≠ 0) :
    c_str (bytes "ssid=" ++ v ++ bytes "&password=" ++ pw)
      = bytes "ssid=" ++ v ++ 38 :: (bytes "password=" ++ pw) := by
  have e : bytes "&password=" = 38 :: bytes "password=" := by decide
  rw [e, c_str_of_no_zero]
  · simp
  · intro c hc
    simp only [List.mem_append, List.mem_cons] at hc
    rcases hc with ((hc | hc) | hc | hc) | hc
    · rw [bytes_ssid] at hc
      simp at hc
      omega
    · exact hv c hc
    · omega
    · rw [bytes_password] at hc
      simp at hc
      omega
    · exact hpw c hc

/-! ## Lemmas on the bootstrap sequence -/

theorem check_reset_button_pressed_iff (gpio_get_level : Nat → Nat) (fuel : Nat)
    (hfuel : 31 ≤ fuel) :
    ∃ r, check_reset_button fuel gpio_get_level = some r ∧
      (r.pressed = true ↔ ∃ i < 30, gpio_get_level i = 0) := by
  obtain ⟨r, hr, hp, hn⟩ :=
    check_reset_loop_spec gpio_get_level 30 0 fuel (by omega) (by omega) (by simp)
  refine ⟨r, by simpa [check_reset_button] using hr, ?_, ?_⟩
  · intro h
    obtain ⟨h1, h2, h3, _, _⟩ := hp h
    exact ⟨r.samples - 1, by omega, h3⟩
  · intro ⟨i, hi, hlow⟩
    by_contra hne
    have hf : r.pressed = false := by simpa using hne
    exact (hn hf).2.2 i hi hlow

theorem app_main_select_mode (pressed start_web : Bool) (env : BootEnv) (ns : NvsNamespace) :
    ((app_main_select pressed start_web env ns).mode = .application ↔
      wifi_credentials_exist env.exist_nvs_open (app_main_select pressed start_web env ns).nvs
        = true) ∧
    ((app_main_select pressed start_web env ns).mode = .provisioning ↔
      wifi_credentials_exist env.exist_nvs_open (app_main_select pressed start_web env ns).nvs
        = false) ∧
    (app_main_select pressed start_web env ns).nvs
      = (if pressed = true then reset_wifi_credentials env ns else ns) := by
  unfold app_main_select
  simp only []
  split_ifs <;> simp_all

theorem credentials_exist_nil (nvs_open_err : esp_err_t) :
    wifi_credentials_exist nvs_open_err [] = false := by
  unfold wifi_credentials_exist nvs_get_str
  split_ifs <;> rfl

theorem app_main_select_calls (pressed start_web : Bool) (env : BootEnv) (ns : NvsNamespace) :
    ((app_main_select pressed start_web env ns).mode = .provisioning →
      (app_main_select pressed start_web env ns).calls
        = (if pressed = true then [BootCall.reset_wifi_credentials] else []) ++
          [.esp_event_handler_register, .wifi_start_ap, .start_http_server]) ∧
    ((app_main_select pressed start_web env ns).mode = .application →
      (app_main_select pressed start_web env ns).calls
        = (if pressed = true then [BootCall.reset_wifi_credentials] else []) ++
          (if start_web = true then [.esp_br_web_start] else []) ++
          [.launch_openthread_border_router]) := by
  unfold app_main_select
  simp only []
  split_ifs <;> simp

/-! ## Lemmas on a failing save -/

theorem save_credentials_fail (w : World) (ds dp : List Nat) (env : Env)
    (hfail : env.nvs_open ≠ ESP_OK ∨ env.nvs_set_str_ssid ≠ ESP_OK ∨
      env.nvs_set_str_password ≠ ESP_OK ∨ env.nvs_commit ≠ ESP_OK) :
    (save_credentials w ds dp env).2 = false ∧
    (env.nvs_open ≠ ESP_OK ∨ env.nvs_set_str_ssid ≠ ESP_OK →
      (save_credentials w ds dp env).1.st.nvs = w.st.nvs) := by
  unfold save_credentials
  simp only []
  split_ifs <;> simp_all

theorem save_credentials_mem_delete (w : World) (a b : List Nat) (env : Env) (sem : Nat)
    (h : .vSemaphoreDelete sem ∈ w.trace) :
    .vSemaphoreDelete sem ∈ (save_credentials w a b env).1.trace := by
  obtain ⟨tail, ht, _⟩ := save_credentials_trace w a b env
  rw [ht]
  exact List.mem_append_left _ h

theorem wait_abort (w : World) (sem : Nat) (ds dp : List Nat) (env : Env)
    (hsem : w.st.wifi_connect_semaphore = some sem)
    (h : (w.st.wifi_connect_success = true ∧ semaphore_available w.trace sem = true) ∨
      env.connected_before_timeout = true)
    (hfail : env.nvs_open ≠ ESP_OK ∨ env.nvs_set_str_ssid ≠ ESP_OK ∨
      env.nvs_set_str_password ≠ ESP_OK ∨ env.nvs_commit ≠ ESP_OK) :
    (wifi_connect_wait w sem ds dp env).outcome = .aborted ∧
    responses (wifi_connect_wait w sem ds dp env).trace = responses w.trace ∧
    .vSemaphoreDelete sem ∈ (wifi_connect_wait w sem ds dp env).trace ∧
    (env.nvs_open ≠ ESP_OK ∨ env.nvs_set_str_ssid ≠ ESP_OK →
      (wifi_connect_wait w sem ds dp env).st.nvs = w.st.nvs) := by
  unfold wifi_connect_wait
  by_cases hb : env.connected_before_timeout = true
  · have ha := event_handler_available w sem hsem
    have hs := event_handler_success w sem hsem
    simp only [hb, if_true, ha, call_st, set_semaphore_success, hs,
      (save_credentials_fail _ ds dp env hfail).1, Bool.false_eq_true, if_false]
    refine ⟨rfl, ?_, ?_, ?_⟩
    · simp [save_credentials_responses, responses_append, event_handler_responses]
      simp [responses]
    · rw [finish_trace]
      apply save_credentials_mem_delete
      simp
    · intro h2
      rw [finish_st, (save_credentials_fail _ ds dp env hfail).2 h2]
      simp
  · obtain ⟨hf, ha⟩ := h.resolve_right hb
    simp only [hb, Bool.false_eq_true, if_false, ha, call_st, set_semaphore_success, hf, if_true,
      (save_credentials_fail _ ds dp env hfail).1]
    refine ⟨rfl, ?_, ?_, ?_⟩
    · simp [save_credentials_responses, responses_append]
      simp [responses]
    · rw [finish_trace]
      apply save_credentials_mem_delete
      simp
    · intro h2
      rw [finish_st, (save_credentials_fail _ ds dp env hfail).2 h2]
      simp

theorem join_abort (st : State) (ds dp : List Nat) (env : Env) (sem : Nat)
    (hc : env.xSemaphoreCreateBinary = some sem)
    (hcfg : env.esp_wifi_set_config = ESP_OK)
    (hco : env.esp_wifi_connect = ESP_OK)
    (hn : env.connected_after_clear = true ∨ env.connected_before_timeout = true)
    (hfail : env.nvs_open ≠ ESP_OK ∨ env.nvs_set_str_ssid ≠ ESP_OK ∨
      env.nvs_set_str_password ≠ ESP_OK ∨ env.nvs_commit ≠ ESP_OK) :
    (wifi_connect_join st ds dp env).outcome = .aborted ∧
    responses (wifi_connect_join st ds dp env).trace = [] ∧
    .vSemaphoreDelete sem ∈ (wifi_connect_join st ds dp env).trace ∧
    (wifi_connect_join st ds dp env).st.wifi_connect_semaphore = none ∧
    (env.nvs_open ≠ ESP_OK ∨ env.nvs_set_str_ssid ≠ ESP_OK →
      (wifi_connect_join st ds dp env).st.nvs = st.nvs) := by
  obtain ⟨w, hw, hsem, hnvs, hresp, hflag, havail, _⟩ :=
    join_reaches_wait st ds dp env sem hc hcfg hco
  have h : (w.st.wifi_connect_success = true ∧ semaphore_available w.trace sem = true) ∨
      env.connected_before_timeout = true := by
    rcases hn with h | h
    · exact Or.inl ⟨by rw [hflag, h], havail h⟩
    · exact Or.inr h
  obtain ⟨e1, e2, e3, e4⟩ := wait_abort w sem ds dp env hsem h hfail
  rw [hw]
  refine ⟨e1, by rw [e2, hresp], e3, wait_final_handle w sem ds dp env, ?_⟩
  intro h2
  rw [e4 h2, hnvs]

/-! ## The success path -/

/-- The success path on a body `ssid=<enc>&password=<enc>` (no zero byte, no `&` in the
ssid field) whose decoded fields and their terminators fit the buffers: with the
semaphore created, the configuration accepted, the join issued, a connected event
handled after the flag was cleared and before the wait ends, and the four NVS calls
succeeding, the handler returns `ESP_OK`, its only response is the `success` body, and
the store holds under `ssid` and `password` the strings `url_decode` left in the
buffers. -/
theorem successful_join_persists (st : State) (env : Env) (sem : Nat)
    (ssid_enc password_enc : List Nat)
    (hs0 : ∀ c ∈ ssid_enc, c ≠ 0) (hs38 : 38 ∉ ssid_enc) (hp0 : ∀ c ∈ password_enc, c ≠ 0)
    (hssid : (url_decode ssid_enc).length < 32) (hpw : (url_decode password_enc).length < 64)
    (hc : env.xSemaphoreCreateBinary = some sem)
    (hcfg : env.esp_wifi_set_config = ESP_OK)
    (hco : env.esp_wifi_connect = ESP_OK)
    (hn : env.connected_after_clear = true ∨ env.connected_before_timeout = true)
    (h1 : env.nvs_open = ESP_OK) (h2 : env.nvs_set_str_ssid = ESP_OK)
    (h3 : env.nvs_set_str_password = ESP_OK) (h4 : env.nvs_commit = ESP_OK) :
    (wifi_connect_handler st
      ⟨(bytes "ssid=" ++ ssid_enc ++ bytes "&password=" ++ password_enc).length,
        bytes "ssid=" ++ ssid_enc ++ bytes "&password=" ++ password_enc⟩ env).outcome
      = .returned ESP_OK ∧
    responses (wifi_connect_handler st
      ⟨(bytes "ssid=" ++ ssid_enc ++ bytes "&password=" ++ password_enc).length,
        bytes "ssid=" ++ ssid_enc ++ bytes "&password=" ++ password_enc⟩ env).trace
      = [.httpd_resp_sendstr resp_success] ∧
    json_status_is "success" resp_success = true ∧
    (wifi_connect_handler st
      ⟨(bytes "ssid=" ++ ssid_enc ++ bytes "&password=" ++ password_enc).length,
        bytes "ssid=" ++ ssid_enc ++ bytes "&password=" ++ password_enc⟩ env).st.nvs.lookup "ssid"
      = some (c_str (url_decode ssid_enc)) ∧
    (wifi_connect_handler st
      ⟨(bytes "ssid=" ++ ssid_enc ++ bytes "&password=" ++ password_enc).length,
        bytes "ssid=" ++ ssid_enc ++ bytes "&password=" ++ password_enc⟩ env).st.nvs.lookup
        "password"
      = some (c_str (url_decode password_enc)) ∧
    ((∀ c ∈ url_decode ssid_enc, c ≠ 0) → c_str (url_decode ssid_enc) = url_decode ssid_enc) ∧
    ((∀ c ∈ url_decode password_enc, c ≠ 0) →
      c_str (url_decode password_enc) = url_decode password_enc) ∧
    (wifi_credentials_exist ESP_OK (wifi_connect_handler st
      ⟨(bytes "ssid=" ++ ssid_enc ++ bytes "&password=" ++ password_enc).length,
        bytes "ssid=" ++ ssid_enc ++ bytes "&password=" ++ password_enc⟩ env).st.nvs = true ↔
      c_str (url_decode ssid_enc) ≠ []) := by
  have hlen : 0 < ((bytes "ssid=" ++ ssid_enc ++ bytes "&password=" ++ password_enc).length
      : Int) := by
    simp only [List.length_append, bytes_ssid]
    simp only [List.length_cons, List.length_nil]
    omega
  have hparse : parse_connect_body (c_str (List.take
      ((bytes "ssid=" ++ ssid_enc ++ bytes "&password=" ++ password_enc).length : Int).toNat
      (bytes "ssid=" ++ ssid_enc ++ bytes "&password=" ++ password_enc)))
      = .ok (ssid_enc, password_enc) := by
    rw [Int.toNat_ofNat, List.take_length, c_str_body ssid_enc password_enc hs0 hp0]
    exact parse_connect_body_form ssid_enc password_enc hs38
  rw [handler_in_limits st _ env ssid_enc password_enc hlen hparse hssid hpw]
  obtain ⟨e1, e2, e3⟩ := join_success st (url_decode_written ssid_enc)
    (url_decode_written password_enc) env sem hc hcfg hco hn h1 h2 h3 h4
  obtain ⟨l1, l2⟩ := nvs_lookup_after_save st.nvs (url_decode_written ssid_enc)
    (url_decode_written password_enc)
  have c1 : ∀ x, c_str (url_decode_written x) = c_str (url_decode x) := fun x => by
    rw [url_decode_written, c_str_append_zero]
  rw [c1] at l1 l2
  refine ⟨e1, e3, resp_success_status, ?_, ?_, c_str_of_no_zero _, c_str_of_no_zero _, ?_⟩
  · rw [e2]
    exact l1
  · rw [e2]
    exact l2
  · rw [e2, credentials_exist_iff ESP_OK _, l1]
    constructor
    · rintro ⟨_, v, hv, hlen⟩ hnil
      rw [hnil] at hv
      cases hv
      simp at hlen
    · intro hne
      exact ⟨rfl, _, rfl, List.length_pos.mpr hne⟩

/-! ## Claims -/

/-- C1: in every run of `wifi_connect_handler` that creates the semaphore `sem` (the call
`xSemaphoreCreateBinary` returns it) and then returns, `vSemaphoreDelete sem` is called
exactly once and `wifi_connect_semaphore` is NULL at the return; this covers the exit
after a failed `esp_wifi_connect`, the exit after a successful take and the exit after
the timeout. -/
theorem C1_signal_deleted_exactly_once (st : State) (req : Request) (env : Env) (sem : Nat)
    (code : esp_err_t)
    (hcreate :
      Action.xSemaphoreCreateBinary (some sem) ∈ (wifi_connect_handler st req env).trace)
    (hret : (wifi_connect_handler st req env).outcome = .returned code) :
    (wifi_connect_handler st req env).trace.count (.vSemaphoreDelete sem) = 1 ∧
    (wifi_connect_handler st req env).st.wifi_connect_semaphore = none := by
  rcases handler_cases st req env with ⟨h, _⟩ | ⟨msg, h⟩ | ⟨ds, dp, h⟩
  · rw [h] at hcreate
    cases hcreate
  · rw [h] at hcreate
    simp at hcreate
  · rw [h] at hcreate hret ⊢
    exact join_deleted_once st ds dp env sem code
      (join_mem_create st ds dp env _ hcreate).symm hret

/-- C1 on the three exits: notification received, `esp_wifi_connect` failing, timeout. -/
theorem C1_signal_deleted_exactly_once_witness :
    ((wifi_connect_handler ⟨none, false, []⟩ ⟨31, bytes "ssid=TestNet&password=secret123"⟩
        ⟨0, some 5, 0, 0, false, false, true, 0, 0, 0, 0⟩).trace.count (.vSemaphoreDelete 5) = 1 ∧
      (wifi_connect_handler ⟨none, false, []⟩ ⟨31, bytes "ssid=TestNet&password=secret123"⟩
        ⟨0, some 5, 0, 0, false, false, true, 0, 0, 0, 0⟩).st.wifi_connect_semaphore = none) ∧
    ((wifi_connect_handler ⟨none, false, []⟩ ⟨31, bytes "ssid=TestNet&password=secret123"⟩
        ⟨0, some 5, 0, -1, false, false, false, 0, 0, 0, 0⟩).trace.count (.vSemaphoreDelete 5)
          = 1 ∧
      (wifi_connect_handler ⟨none, false, []⟩ ⟨31, bytes "ssid=TestNet&password=secret123"⟩
        ⟨0, some 5, 0, -1, false, false, false, 0, 0, 0, 0⟩).st.wifi_connect_semaphore = none) ∧
    ((wifi_connect_handler ⟨none, false, []⟩ ⟨31, bytes "ssid=TestNet&password=secret123"⟩
        ⟨0, some 5, 0, 0, false, false, false, 0, 0, 0, 0⟩).trace.count (.vSemaphoreDelete 5)
          = 1 ∧
      (wifi_connect_handler ⟨none, false, []⟩ ⟨31, bytes "ssid=TestNet&password=secret123"⟩
        ⟨0, some 5, 0, 0, false, false, false, 0, 0, 0, 0⟩).st.wifi_connect_semaphore = none) :=
  ⟨C1_signal_deleted_exactly_once ⟨none, false, []⟩
      ⟨31, bytes "ssid=TestNet&password=secret123"⟩
      ⟨0, some 5, 0, 0, false, false, true, 0, 0, 0, 0⟩ 5 ESP_OK (by decide) (by decide),
   C1_signal_deleted_exactly_once ⟨none, false, []⟩
      ⟨31, bytes "ssid=TestNet&password=secret123"⟩
      ⟨0, some 5, 0, -1, false, false, false, 0, 0, 0, 0⟩ 5 ESP_FAIL (by decide) (by decide),
   C1_signal_deleted_exactly_once ⟨none, false, []⟩
      ⟨31, bytes "ssid=TestNet&password=secret123"⟩
      ⟨0, some 5, 0, 0, false, false, false, 0, 0, 0, 0⟩ 5 ESP_OK (by decide) (by decide)⟩

/-- C2: for a request whose body parses and whose decoded fields fit their buffers, with
the radio configuration accepted, if `esp_wifi_connect` fails or no connected event is
handled between the clearing of the flag and the end of the wait, the handler returns,
its only response is a JSON body with status `error`, sent last, and the namespace
`wifi_config` is as it was. -/
theorem C2_failed_join_reports_error (st : State) (req : Request) (env : Env)
    (ssid password : List Nat)
    (hret : 0 < req.ret)
    (hparse : parse_connect_body (c_str (req.buf.take req.ret.toNat)) = .ok (ssid, password))
    (hssid : (url_decode ssid).length < 32) (hpw : (url_decode password).length < 64)
    (hcfg : env.esp_wifi_set_config = ESP_OK)
    (hfail : env.esp_wifi_connect ≠ ESP_OK ∨
      (env.connected_after_clear = false ∧ env.connected_before_timeout = false)) :
    (∃ code, (wifi_connect_handler st req env).outcome = .returned code) ∧
    (wifi_connect_handler st req env).st.nvs = st.nvs ∧
    ∃ pre body, (wifi_connect_handler st req env).trace
        = pre ++ [.httpd_resp_set_type "application/json", .httpd_resp_sendstr body] ∧
      responses pre = [] ∧ json_status_is "error" body = true := by
  rw [handler_in_limits st req env ssid password hret hparse hssid hpw]
  exact join_fail st _ _ env hcfg hfail

/-- C2 on a join that times out, with the store holding earlier credentials. -/
theorem C2_failed_join_reports_error_witness :
    (∃ code, (wifi_connect_handler ⟨none, false, [("ssid", bytes "Old")]⟩
        ⟨31, bytes "ssid=TestNet&password=secret123"⟩
        ⟨0, some 5, 0, 0, false, false, false, 0, 0, 0, 0⟩).outcome = .returned code) ∧
    (wifi_connect_handler ⟨none, false, [("ssid", bytes "Old")]⟩
        ⟨31, bytes "ssid=TestNet&password=secret123"⟩
        ⟨0, some 5, 0, 0, false, false, false, 0, 0, 0, 0⟩).st.nvs
      = [("ssid", bytes "Old")] ∧
    ∃ pre body, (wifi_connect_handler ⟨none, false, [("ssid", bytes "Old")]⟩
        ⟨31, bytes "ssid=TestNet&password=secret123"⟩
        ⟨0, some 5, 0, 0, false, false, false, 0, 0, 0, 0⟩).trace
        = pre ++ [.httpd_resp_set_type "application/json", .httpd_resp_sendstr body] ∧
      responses pre = [] ∧ json_status_is "error" body = true :=
  C2_failed_join_reports_error ⟨none, false, [("ssid", bytes "Old")]⟩
    ⟨31, bytes "ssid=TestNet&password=secret123"⟩
    ⟨0, some 5, 0, 0, false, false, false, 0, 0, 0, 0⟩ (bytes "TestNet") (bytes "secret123")
    (by decide) rfl (by decide) (by decide) rfl (Or.inr ⟨rfl, rfl⟩)

/-- C3 fails on an ssid of 32 characters, the longest the field limit allows. The body
has the form `ssid=<enc>&password=<enc>` and passes the parser; the decoded ssid has 32
bytes and the decoded password 9. `url_decode` then stores 33 bytes, terminator
included, into the 32-byte `decoded_ssid`, and the behaviour of the handler is
undefined instead of a `success` response with the ssid stored. With one character
less, and on the body `ssid=TestNet&password=secret123`, the handler does what the
claim says. -/
theorem C3_longest_ssid_overflows :
    (bytes "ssid=0123456789abcdef0123456789abcdef&password=secret123").length = 56 ∧
    parse_connect_body
        (c_str (bytes "ssid=0123456789abcdef0123456789abcdef&password=secret123"))
      = .ok (bytes "0123456789abcdef0123456789abcdef", bytes "secret123") ∧
    (url_decode (bytes "0123456789abcdef0123456789abcdef")).length = 32 ∧
    (url_decode (bytes "secret123")).length = 9 ∧
    (url_decode_written (bytes "0123456789abcdef0123456789abcdef")).length = 33 ∧
    (wifi_connect_handler ⟨none, false, []⟩
      ⟨56, bytes "ssid=0123456789abcdef0123456789abcdef&password=secret123"⟩
      ⟨0, some 5, 0, 0, false, false, true, 0, 0, 0, 0⟩).outcome = .undefined ∧
    (wifi_connect_handler ⟨none, false, []⟩
      ⟨55, bytes "ssid=0123456789abcdef0123456789abcde&password=secret123"⟩
      ⟨0, some 5, 0, 0, false, false, true, 0, 0, 0, 0⟩).outcome = .returned ESP_OK ∧
    (wifi_connect_handler ⟨none, false, []⟩
      ⟨55, bytes "ssid=0123456789abcdef0123456789abcde&password=secret123"⟩
      ⟨0, some 5, 0, 0, false, false, true, 0, 0, 0, 0⟩).st.nvs
      = [("password", bytes "secret123"), ("ssid", bytes "0123456789abcdef0123456789abcde")] ∧
    responses (wifi_connect_handler ⟨none, false, []⟩
      ⟨31, bytes "ssid=TestNet&password=secret123"⟩
      ⟨0, some 5, 0, 0, false, false, true, 0, 0, 0, 0⟩).trace
      = [.httpd_resp_sendstr resp_success] ∧
    json_status_is "success" resp_success = true ∧
    (wifi_connect_handler ⟨none, false, []⟩ ⟨31, bytes "ssid=TestNet&password=secret123"⟩
      ⟨0, some 5, 0, 0, false, false, true, 0, 0, 0, 0⟩).st.nvs
      = [("password", bytes "secret123"), ("ssid", bytes "TestNet")] ∧
    wifi_credentials_exist ESP_OK
      (wifi_connect_handler ⟨none, false, []⟩ ⟨31, bytes "ssid=TestNet&password=secret123"⟩
        ⟨0, some 5, 0, 0, false, false, true, 0, 0, 0, 0⟩).st.nvs = true :=
  ⟨by decide, rfl, by decide, by decide, by decide, by decide, by decide, by decide,
   by decide, by decide, by decide, by decide⟩

/-- C4 fails: entered with the handle of an outstanding join (semaphore 7), the handler
disconnects, configures the radio, issues a new join, answers `success` and leaves the
handle NULL. -/
theorem C4_counterexample :
    Action.esp_wifi_disconnect ∈
      (wifi_connect_handler ⟨some 7, false, []⟩ ⟨31, bytes "ssid=TestNet&password=secret123"⟩
        ⟨0, some 8, 0, 0, false, false, true, 0, 0, 0, 0⟩).trace ∧
    Action.esp_wifi_set_config (strncpy (bytes "TestNet") 32) (strncpy (bytes "secret123") 64) ∈
      (wifi_connect_handler ⟨some 7, false, []⟩ ⟨31, bytes "ssid=TestNet&password=secret123"⟩
        ⟨0, some 8, 0, 0, false, false, true, 0, 0, 0, 0⟩).trace ∧
    Action.esp_wifi_connect ∈
      (wifi_connect_handler ⟨some 7, false, []⟩ ⟨31, bytes "ssid=TestNet&password=secret123"⟩
        ⟨0, some 8, 0, 0, false, false, true, 0, 0, 0, 0⟩).trace ∧
    responses (wifi_connect_handler ⟨some 7, false, []⟩
        ⟨31, bytes "ssid=TestNet&password=secret123"⟩
        ⟨0, some 8, 0, 0, false, false, true, 0, 0, 0, 0⟩).trace
      = [.httpd_resp_sendstr resp_success] ∧
    (wifi_connect_handler ⟨some 7, false, []⟩ ⟨31, bytes "ssid=TestNet&password=secret123"⟩
        ⟨0, some 8, 0, 0, false, false, true, 0, 0, 0, 0⟩).st.wifi_connect_semaphore
      = none := by
  decide

/-- C4, amended: the handler never tests `wifi_connect_semaphore`. Entered with a request
that parses and fits the buffers, whatever handle it finds, it runs exactly as from a
NULL handle: its first call is `esp_wifi_disconnect`, it calls `xSemaphoreCreateBinary`
and overwrites the handle with the result, and with a semaphore created it calls
`esp_wifi_set_config` and, that succeeding, `esp_wifi_connect`; the handle it leaves is
NULL or the new semaphore. -/
theorem C4_outstanding_join_not_rejected (st : State) (req : Request) (env : Env)
    (ssid password : List Nat)
    (hret : 0 < req.ret)
    (hparse : parse_connect_body (c_str (req.buf.take req.ret.toNat)) = .ok (ssid, password))
    (hssid : (url_decode ssid).length < 32) (hpw : (url_decode password).length < 64) :
    wifi_connect_handler st req env
      = wifi_connect_handler { st with wifi_connect_semaphore := none } req env ∧
    (wifi_connect_handler st req env).trace.head? = some .esp_wifi_disconnect ∧
    .xSemaphoreCreateBinary env.xSemaphoreCreateBinary ∈ (wifi_connect_handler st req env).trace ∧
    (env.xSemaphoreCreateBinary ≠ none →
      .esp_wifi_set_config (strncpy (url_decode_written ssid) 32)
        (strncpy (url_decode_written password) 64) ∈ (wifi_connect_handler st req env).trace) ∧
    (env.xSemaphoreCreateBinary ≠ none → env.esp_wifi_set_config = ESP_OK →
      .esp_wifi_connect ∈ (wifi_connect_handler st req env).trace) ∧
    ((wifi_connect_handler st req env).st.wifi_connect_semaphore = none ∨
      (wifi_connect_handler st req env).st.wifi_connect_semaphore
        = env.xSemaphoreCreateBinary) ∧
    (∀ old, st.wifi_connect_semaphore = some old →
      (wifi_connect_handler st req env).st.wifi_connect_semaphore = some old →
      env.xSemaphoreCreateBinary = some old) := by
  rw [handler_in_limits st req env ssid password hret hparse hssid hpw,
    handler_in_limits _ req env ssid password hret hparse hssid hpw,
    join_handle_irrelevant st none]
  obtain ⟨j1, j2, j3, j4, j5⟩ := join_calls st (url_decode_written ssid)
    (url_decode_written password) env
  refine ⟨rfl, j1, j2, j3, j4, j5, ?_⟩
  intro old _ h
  rcases j5 with j | j
  · rw [j] at h
    cases h
  · rw [← j, h]

/-- C4 on a well-formed request that finds the handle of semaphore 7. -/
theorem C4_outstanding_join_not_rejected_witness :
    wifi_connect_handler ⟨some 7, false, []⟩ ⟨31, bytes "ssid=TestNet&password=secret123"⟩
        ⟨0, some 8, 0, 0, false, false, true, 0, 0, 0, 0⟩
      = wifi_connect_handler ⟨none, false, []⟩ ⟨31, bytes "ssid=TestNet&password=secret123"⟩
        ⟨0, some 8, 0, 0, false, false, true, 0, 0, 0, 0⟩ ∧
    (wifi_connect_handler ⟨some 7, false, []⟩ ⟨31, bytes "ssid=TestNet&password=secret123"⟩
        ⟨0, some 8, 0, 0, false, false, true, 0, 0, 0, 0⟩).trace.head?
      = some .esp_wifi_disconnect :=
  ⟨(C4_outstanding_join_not_rejected ⟨some 7, false, []⟩
      ⟨31, bytes "ssid=TestNet&password=secret123"⟩
      ⟨0, some 8, 0, 0, false, false, true, 0, 0, 0, 0⟩ (bytes "TestNet") (bytes "secret123")
      (by decide) rfl (by decide) (by decide)).1,
   (C4_outstanding_join_not_rejected ⟨some 7, false, []⟩
      ⟨31, bytes "ssid=TestNet&password=secret123"⟩
      ⟨0, some 8, 0, 0, false, false, true, 0, 0, 0, 0⟩ (bytes "TestNet") (bytes "secret123")
      (by decide) rfl (by decide) (by decide)).2.1⟩

/-- C5: a request whose body is not received (`ret <= 0`), holds no `ssid=`, has no `&`
after the ssid value, or has no `password=` after that `&`, is answered with a 400
error and `ESP_FAIL`; the 400 response is the only call made (no disconnect, radio
configuration, connect, semaphore or NVS call) and the state is left as it was. -/
theorem C5_malformed_request_rejected (st : State) (req : Request) (env : Env)
    (h : req.ret ≤ 0 ∨
      ¬ (bytes "ssid=" <:+: c_str (req.buf.take req.ret.toNat)) ∨
      (∃ p, strstr (c_str (req.buf.take req.ret.toNat)) (bytes "ssid=") = some p ∧
        38 ∉ p.drop 5) ∨
      (∃ p v rest, strstr (c_str (req.buf.take req.ret.toNat)) (bytes "ssid=") = some p ∧
        p.drop 5 = v ++ 38 :: rest ∧ 38 ∉ v ∧ ¬ (bytes "password=" <:+: rest))) :
    (wifi_connect_handler st req env).outcome = .returned ESP_FAIL ∧
    (∃ msg, (wifi_connect_handler st req env).trace = [.httpd_resp_send_err 400 msg]) ∧
    (wifi_connect_handler st req env).st = st := by
  unfold wifi_connect_handler
  by_cases hret : req.ret ≤ 0
  · rw [if_pos hret]
    exact ⟨rfl, ⟨_, rfl⟩, rfl⟩
  · obtain ⟨msg, hmsg⟩ := parse_connect_body_error _ (h.resolve_left hret)
    rw [if_neg hret]
    simp only [hmsg]
    exact ⟨trivial, ⟨msg, rfl⟩, trivial⟩

/-- C5 on a body that is not received, a body without `ssid=`, one without `&` and one
without `password=`. -/
theorem C5_malformed_request_rejected_witness :
    ((wifi_connect_handler ⟨none, false, []⟩ ⟨0, []⟩
        ⟨0, some 1, 0, 0, false, false, true, 0, 0, 0, 0⟩).outcome = .returned ESP_FAIL ∧
      (∃ msg, (wifi_connect_handler ⟨none, false, []⟩ ⟨0, []⟩
        ⟨0, some 1, 0, 0, false, false, true, 0, 0, 0, 0⟩).trace
          = [.httpd_resp_send_err 400 msg]) ∧
      (wifi_connect_handler ⟨none, false, []⟩ ⟨0, []⟩
        ⟨0, some 1, 0, 0, false, false, true, 0, 0, 0, 0⟩).st = ⟨none, false, []⟩) ∧
    (wifi_connect_handler ⟨none, false, []⟩ ⟨17, bytes "name=a&password=b"⟩
        ⟨0, some 1, 0, 0, false, false, true, 0, 0, 0, 0⟩).trace
      = [.httpd_resp_send_err 400 "Missing SSID"] ∧
    (wifi_connect_handler ⟨none, false, []⟩ ⟨12, bytes "ssid=TestNet"⟩
        ⟨0, some 1, 0, 0, false, false, true, 0, 0, 0, 0⟩).trace
      = [.httpd_resp_send_err 400 "Invalid SSID format"] ∧
    (wifi_connect_handler ⟨none, false, []⟩ ⟨19, bytes "ssid=TestNet&pass=b"⟩
        ⟨0, some 1, 0, 0, false, false, true, 0, 0, 0, 0⟩).trace
      = [.httpd_resp_send_err 400 "Missing password"] :=
  ⟨C5_malformed_request_rejected ⟨none, false, []⟩ ⟨0, []⟩
      ⟨0, some 1, 0, 0, false, false, true, 0, 0, 0, 0⟩ (Or.inl (by decide)),
   by decide, by decide, by decide⟩

/-- C6 fails on a 32-character ssid: the body is accepted by the parser, and
`url_decode` stores 33 bytes, terminator included, into the 32-byte `decoded_ssid`;
likewise a 64-character password gives 65 bytes for the 64-byte `decoded_password`.
The handler passes no bound to `url_decode`. -/
theorem C6_decoded_field_overflow :
    (bytes "ssid=0123456789abcdef0123456789abcdef&password=x").length ≤ 511 ∧
    parse_connect_body (c_str (bytes "ssid=0123456789abcdef0123456789abcdef&password=x"))
      = .ok (bytes "0123456789abcdef0123456789abcdef", bytes "x") ∧
    (url_decode_written (bytes "0123456789abcdef0123456789abcdef")).length = 33 ∧
    (wifi_connect_handler ⟨none, false, []⟩
      ⟨48, bytes "ssid=0123456789abcdef0123456789abcdef&password=x"⟩
      ⟨0, some 5, 0, 0, false, false, true, 0, 0, 0, 0⟩).outcome = .undefined ∧
    parse_connect_body (c_str (bytes
      "ssid=a&password=0123456789abcdef0123456789abcdef0123456789abcdef0123456789abcdef"))
      = .ok (bytes "a",
          bytes "0123456789abcdef0123456789abcdef0123456789abcdef0123456789abcdef") ∧
    (url_decode_written
      (bytes "0123456789abcdef0123456789abcdef0123456789abcdef0123456789abcdef")).length = 65 :=
  ⟨by decide, rfl, by decide, by decide, rfl, by decide⟩

/-- C7: `url_decode` is the standard form decoder applied to the zero-terminated input,
scanning left to right: `%XY` with two hexadecimal digits of either case gives the byte
`16 * hexval X + hexval Y` and consumes three characters, `+` gives a space, every other
character is copied, and the output is followed by a zero byte; `a%20b+c` decodes to
`a b c` and the empty string to the empty string. -/
theorem C7_url_decode_is_form_decode :
    (∀ s : List Nat, url_decode s = form_decode (c_str s)) ∧
    (∀ s : List Nat, url_decode_written s = form_decode (c_str s) ++ [0]) ∧
    (∀ (x y : Nat) (rest : List Nat), isxdigit x = true → isxdigit y = true →
      url_decode (37 :: x :: y :: rest) = (16 * hexval x + hexval y) :: url_decode rest) ∧
    (List.map hexval (bytes "0123456789abcdefABCDEF")
      = [0, 1, 2, 3, 4, 5, 6, 7, 8, 9, 10, 11, 12, 13, 14, 15, 10, 11, 12, 13, 14, 15]) ∧
    url_decode (bytes "a%20b+c") = bytes "a b c" ∧
    url_decode (bytes "") = bytes "" := by
  refine ⟨url_decode_eq_form_decode, ?_, ?_, by decide, by decide, by decide⟩
  · intro s
    rw [url_decode_written, url_decode_eq_form_decode]
  · intro x y rest hx hy
    have e : url_decode (37 :: x :: y :: rest)
        = ((16 * hex_adjust x + hex_adjust y) % 256) :: url_decode rest := by
      simp [url_decode, isxdigit_ne_zero x hx, isxdigit_ne_zero y hy, hx, hy]
    rw [e, url_decode_byte x y hx hy]

/-- C8: an input string (no zero byte) that contains no `+` and in which no `%` is
immediately followed by two hexadecimal digits, a `%` with fewer than two characters
after it included, is returned unchanged by `url_decode`. -/
theorem C8_malformed_escape_literal (s : List Nat) (hstr : ∀ c ∈ s, c ≠ 0) (hplus : 43 ∉ s)
    (hesc : ∀ i < s.length, s.getD i 0 = 37 →
      ¬ (isxdigit (s.getD (i + 1) 0) = true ∧ isxdigit (s.getD (i + 2) 0) = true)) :
    url_decode s = s := by
  rw [url_decode_eq_form_decode, c_str_of_no_zero s hstr]
  exact form_decode_of_plain s hplus hesc

/-- C8 at `%zz`, and at a `%` that ends the string. -/
theorem C8_malformed_escape_literal_witness :
    url_decode (bytes "%zz") = bytes "%zz" ∧ url_decode (bytes "a%4") = bytes "a%4" :=
  ⟨C8_malformed_escape_literal (bytes "%zz") (by decide) (by decide) (by decide),
   C8_malformed_escape_literal (bytes "a%4") (by decide) (by decide) (by decide)⟩

/-- C9 fails for a stored one-character ssid: `nvs_get_str` reports the size 2, which
counts the terminator, and `wifi_credentials_exist` returns true. -/
theorem C9_counterexample :
    (bytes "x").length ≤ 1 ∧
    List.lookup "ssid" [("ssid", bytes "x"), ("password", bytes "secret")] = some (bytes "x") ∧
    nvs_get_str [("ssid", bytes "x"), ("password", bytes "secret")] "ssid" = .ok 2 ∧
    wifi_credentials_exist ESP_OK [("ssid", bytes "x"), ("password", bytes "secret")]
      = true :=
  ⟨by decide, by decide, rfl, by decide⟩

/-- C9, amended: `wifi_credentials_exist` returns true exactly when the namespace opens
and holds an ssid of length at least 1; it returns false when the store cannot be
opened, when there is no ssid key, and when the stored ssid is empty. -/
theorem C9_credentials_exist_iff (nvs_open_err : esp_err_t) (ns : NvsNamespace) :
    (wifi_credentials_exist nvs_open_err ns = true ↔
      nvs_open_err = ESP_OK ∧ ∃ v, ns.lookup "ssid" = some v ∧ 1 ≤ v.length) ∧
    (nvs_open_err ≠ ESP_OK → wifi_credentials_exist nvs_open_err ns = false) ∧
    (ns.lookup "ssid" = none → wifi_credentials_exist nvs_open_err ns = false) ∧
    (ns.lookup "ssid" = some [] → wifi_credentials_exist nvs_open_err ns = false) := by
  unfold wifi_credentials_exist nvs_get_str
  by_cases h : nvs_open_err = ESP_OK
  · cases hl : ns.lookup "ssid" with
    | none => simp [h]
    | some v =>
      cases v with
      | nil => simp [h]
      | cons c t => simp [h]
  · simp [h]

/-- C10: with fuel for the 31 evaluations of the loop condition, `check_reset_button`
returns; it returns true exactly when one of the first 30 samples is low, having then
stopped at the first low sample; it returns false only after 30 high samples; it never
takes more than 30 samples or 30 delays of 100 ms (3000 ms). -/
theorem C10_check_reset_button (gpio_get_level : Nat → Nat) (fuel : Nat) (hfuel : 31 ≤ fuel) :
    ∃ r, check_reset_button fuel gpio_get_level = some r ∧
      (r.pressed = true ↔ ∃ i < 30, gpio_get_level i = 0) ∧
      (r.pressed = true →
        gpio_get_level (r.samples - 1) = 0 ∧ (∀ j < r.samples - 1, gpio_get_level j ≠ 0) ∧
        r.delays = r.samples - 1) ∧
      (r.pressed = false →
        r.samples = 30 ∧ r.delays = 30 ∧ ∀ j < 30, gpio_get_level j ≠ 0) ∧
      1 ≤ r.samples ∧ r.samples ≤ 30 ∧ r.delays ≤ 30 ∧ 100 * r.delays ≤ RESET_HOLD_TIME_MS := by
  obtain ⟨r, hr, hp, hn⟩ :=
    check_reset_loop_spec gpio_get_level 30 0 fuel (by omega) (by omega) (by simp)
  refine ⟨r, by simpa [check_reset_button] using hr, ?_, ?_, hn, ?_⟩
  · constructor
    · intro h
      obtain ⟨h1, h2, h3, _, _⟩ := hp h
      exact ⟨r.samples - 1, by omega, h3⟩
    · intro ⟨i, hi, hlow⟩
      by_contra hne
      have hf : r.pressed = false := by simpa using hne
      exact (hn hf).2.2 i hi hlow
  · intro h
    obtain ⟨_, _, h3, h4, h5⟩ := hp h
    exact ⟨h3, h4, h5⟩
  · unfold RESET_HOLD_TIME_MS
    cases hpr : r.pressed with
    | true =>
      obtain ⟨h1, h2, _, _, h5⟩ := hp hpr
      omega
    | false =>
      obtain ⟨h1, h2, _⟩ := hn hpr
      omega

/-- C10 with the button pressed at the fourth sample, and never pressed. -/
theorem C10_check_reset_button_witness :
    (∃ r, check_reset_button 31 (fun i => if i = 3 then 0 else 1) = some r ∧
      (r.pressed = true ↔ ∃ i < 30, (fun i => if i = 3 then 0 else 1) i = 0) ∧
      (r.pressed = true →
        (fun i => if i = 3 then 0 else 1) (r.samples - 1) = 0 ∧
        (∀ j < r.samples - 1, (fun i => if i = 3 then 0 else 1) j ≠ 0) ∧
        r.delays = r.samples - 1) ∧
      (r.pressed = false →
        r.samples = 30 ∧ r.delays = 30 ∧ ∀ j < 30, (fun i => if i = 3 then 0 else 1) j ≠ 0) ∧
      1 ≤ r.samples ∧ r.samples ≤ 30 ∧ r.delays ≤ 30 ∧ 100 * r.delays ≤ RESET_HOLD_TIME_MS) ∧
    check_reset_button 31 (fun i => if i = 3 then 0 else 1) = some ⟨true, 4, 3⟩ ∧
    check_reset_button 31 (fun _ => 1) = some ⟨false, 30, 30⟩ :=
  ⟨C10_check_reset_button (fun i => if i = 3 then 0 else 1) 31 (by decide),
   by decide, by decide⟩

/-- C11 fails when the namespace cannot be opened for writing: the button is pressed on
a configured device, `nvs_open` in `reset_wifi_credentials` returns an error, nothing is
erased, and the border router is launched. -/
theorem C11_counterexample :
    check_reset_button 31 (fun _ => 0) = some ⟨true, 1, 0⟩ ∧
    reset_wifi_credentials ⟨ESP_ERR_NO_MEM, ESP_OK, [], ESP_OK⟩
      [("ssid", bytes "HomeNet"), ("password", bytes "secret123")]
      = [("ssid", bytes "HomeNet"), ("password", bytes "secret123")] ∧
    app_main 31 (fun _ => 0) false ⟨ESP_ERR_NO_MEM, ESP_OK, [], ESP_OK⟩
      [("ssid", bytes "HomeNet"), ("password", bytes "secret123")]
      = some ⟨.application, [("ssid", bytes "HomeNet"), ("password", bytes "secret123")],
          [.reset_wifi_credentials, .launch_openthread_border_router]⟩ := by
  decide

/-- C11, amended: with fuel for `check_reset_button`, the bootstrap sequence ends, and
the branch taken is the application branch exactly when `wifi_credentials_exist` is
true on the namespace as the reset step left it. If a reset is requested and the
namespace opens for writing and is erased, the namespace is empty and the provisioning
branch (event handler, access point, HTTP server) is taken; if a reset is requested and
`nvs_open` fails, the namespace is left as it was; with no reset request the namespace
is left as it was and the application branch is taken exactly when
`wifi_credentials_exist` is true, the provisioning branch otherwise. -/
theorem C11_bootstrap_mode (gpio_get_level : Nat → Nat) (fuel : Nat) (start_web : Bool)
    (env : BootEnv) (ns : NvsNamespace) (hfuel : 31 ≤ fuel) :
    ∃ b, app_main fuel gpio_get_level start_web env ns = some b ∧
      (b.mode = .application ↔ wifi_credentials_exist env.exist_nvs_open b.nvs = true) ∧
      (b.mode = .provisioning ↔ wifi_credentials_exist env.exist_nvs_open b.nvs = false) ∧
      ((∃ i < 30, gpio_get_level i = 0) → env.reset_nvs_open = ESP_OK →
        env.nvs_erase_all = ESP_OK →
        b.nvs = [] ∧ b.mode = .provisioning ∧
        b.calls = [.reset_wifi_credentials, .esp_event_handler_register, .wifi_start_ap,
          .start_http_server]) ∧
      ((∃ i < 30, gpio_get_level i = 0) → env.reset_nvs_open ≠ ESP_OK → b.nvs = ns) ∧
      ((∀ i < 30, gpio_get_level i ≠ 0) →
        b.nvs = ns ∧
        (b.mode = .application ↔ wifi_credentials_exist env.exist_nvs_open ns = true) ∧
        (b.mode = .provisioning ↔ wifi_credentials_exist env.exist_nvs_open ns = false) ∧
        BootCall.reset_wifi_credentials ∉ b.calls) := by
  obtain ⟨r, hr, hp⟩ := check_reset_button_pressed_iff gpio_get_level fuel hfuel
  obtain ⟨m1, m2, m3⟩ := app_main_select_mode r.pressed start_web env ns
  obtain ⟨c1, c2⟩ := app_main_select_calls r.pressed start_web env ns
  refine ⟨app_main_select r.pressed start_web env ns, ?_, m1, m2, ?_, ?_, ?_⟩
  · unfold app_main
    rw [hr]
  · intro hlow hopen herase
    have hpr : r.pressed = true := hp.mpr hlow
    have hn : (app_main_select r.pressed start_web env ns).nvs = [] := by
      rw [m3, if_pos hpr]
      simp [reset_wifi_credentials, hopen, herase]
    have hm : (app_main_select r.pressed start_web env ns).mode = .provisioning := by
      rw [m2, hn]
      exact credentials_exist_nil _
    refine ⟨hn, hm, ?_⟩
    rw [c1 hm, if_pos hpr]
    rfl
  · intro hlow hopen
    have hpr : r.pressed = true := hp.mpr hlow
    rw [m3, if_pos hpr]
    simp [reset_wifi_credentials, hopen]
  · intro hhigh
    have hpr : r.pressed = false := by
      cases h : r.pressed with
      | false => rfl
      | true =>
        obtain ⟨i, hi, hlow⟩ := hp.mp h
        exact absurd hlow (hhigh i hi)
    have hn : (app_main_select r.pressed start_web env ns).nvs = ns := by
      rw [m3, hpr]
      simp
    refine ⟨hn, ?_, ?_, ?_⟩
    · rw [m1, hn]
    · rw [m2, hn]
    · cases hm : (app_main_select r.pressed start_web env ns).mode with
      | application =>
        rw [c2 hm, hpr]
        cases start_web <;> simp
      | provisioning =>
        rw [c1 hm, hpr]
        simp

/-- C11 on a configured device: with the button pressed and the erase succeeding the
provisioning branch is taken on an empty namespace; with the button not pressed the
border router is launched. -/
theorem C11_bootstrap_mode_witness :
    (∃ b, app_main 31 (fun _ => 0) true ⟨ESP_OK, ESP_OK, [], ESP_OK⟩
        [("ssid", bytes "HomeNet"), ("password", bytes "secret123")] = some b ∧
      (b.mode = .application ↔ wifi_credentials_exist ESP_OK b.nvs = true) ∧
      (b.mode = .provisioning ↔ wifi_credentials_exist ESP_OK b.nvs = false) ∧
      ((∃ i < 30, (fun _ => 0) i = 0) → ESP_OK = ESP_OK → ESP_OK = ESP_OK →
        b.nvs = [] ∧ b.mode = .provisioning ∧
        b.calls = [.reset_wifi_credentials, .esp_event_handler_register, .wifi_start_ap,
          .start_http_server]) ∧
      ((∃ i < 30, (fun _ => 0) i = 0) → ESP_OK ≠ ESP_OK →
        b.nvs = [("ssid", bytes "HomeNet"), ("password", bytes "secret123")]) ∧
      ((∀ i < 30, (fun _ => 0) i ≠ 0) →
        b.nvs = [("ssid", bytes "HomeNet"), ("password", bytes "secret123")] ∧
        (b.mode = .application ↔ wifi_credentials_exist ESP_OK
          [("ssid", bytes "HomeNet"), ("password", bytes "secret123")] = true) ∧
        (b.mode = .provisioning ↔ wifi_credentials_exist ESP_OK
          [("ssid", bytes "HomeNet"), ("password", bytes "secret123")] = false) ∧
        BootCall.reset_wifi_credentials ∉ b.calls)) ∧
    app_main 31 (fun _ => 0) true ⟨ESP_OK, ESP_OK, [], ESP_OK⟩
        [("ssid", bytes "HomeNet"), ("password", bytes "secret123")]
      = some ⟨.provisioning, [], [.reset_wifi_credentials, .esp_event_handler_register,
          .wifi_start_ap, .start_http_server]⟩ ∧
    app_main 31 (fun _ => 1) true ⟨ESP_OK, ESP_OK, [], ESP_OK⟩
        [("ssid", bytes "HomeNet"), ("password", bytes "secret123")]
      = some ⟨.application, [("ssid", bytes "HomeNet"), ("password", bytes "secret123")],
          [.esp_br_web_start, .launch_openthread_border_router]⟩ ∧
    app_main 31 (fun _ => 1) true ⟨ESP_OK, ESP_OK, [], ESP_OK⟩ []
      = some ⟨.provisioning, [], [.esp_event_handler_register, .wifi_start_ap,
          .start_http_server]⟩ :=
  ⟨C11_bootstrap_mode (fun _ => 0) 31 true ⟨ESP_OK, ESP_OK, [], ESP_OK⟩
      [("ssid", bytes "HomeNet"), ("password", bytes "secret123")] (by decide),
   by decide, by decide, by decide⟩

/-- C12 fails: the join succeeds and `nvs_commit` returns an error; the run ends in the
abort of `ESP_ERROR_CHECK`, without returning and without any response. -/
theorem C12_counterexample :
    (wifi_connect_handler ⟨none, false, []⟩ ⟨31, bytes "ssid=TestNet&password=secret123"⟩
      ⟨0, some 5, 0, 0, false, false, true, 0, 0, 0, ESP_FAIL⟩).outcome = .aborted ∧
    responses (wifi_connect_handler ⟨none, false, []⟩
      ⟨31, bytes "ssid=TestNet&password=secret123"⟩
      ⟨0, some 5, 0, 0, false, false, true, 0, 0, 0, ESP_FAIL⟩).trace = [] ∧
    (wifi_connect_handler ⟨none, false, []⟩ ⟨31, bytes "ssid=TestNet&password=secret123"⟩
      ⟨0, some 5, 0, 0, false, false, true, ESP_FAIL, 0, 0, 0⟩).outcome = .aborted ∧
    responses (wifi_connect_handler ⟨none, false, []⟩
      ⟨31, bytes "ssid=TestNet&password=secret123"⟩
      ⟨0, some 5, 0, 0, false, false, true, ESP_FAIL, 0, 0, 0⟩).trace = [] := by
  decide

/-- C12, amended: for a request that parses and fits the buffers, with the semaphore
created, the configuration accepted, the join issued and a connected event handled
after the flag was cleared and before the wait ends, if `nvs_open`, one of the two
`nvs_set_str` calls or `nvs_commit` returns an error, the run ends in the abort of
`ESP_ERROR_CHECK`: the handler does not return and sends no response. Before the abort
the semaphore was deleted and the handle set to NULL; when the failing call is
`nvs_open` or the write of the ssid, the namespace is as it was. -/
theorem C12_persistence_failure_aborts (st : State) (req : Request) (env : Env)
    (ssid password : List Nat) (sem : Nat)
    (hret : 0 < req.ret)
    (hparse : parse_connect_body (c_str (req.buf.take req.ret.toNat)) = .ok (ssid, password))
    (hssid : (url_decode ssid).length < 32) (hpw : (url_decode password).length < 64)
    (hc : env.xSemaphoreCreateBinary = some sem)
    (hcfg : env.esp_wifi_set_config = ESP_OK)
    (hco : env.esp_wifi_connect = ESP_OK)
    (hn : env.connected_after_clear = true ∨ env.connected_before_timeout = true)
    (hfail : env.nvs_open ≠ ESP_OK ∨ env.nvs_set_str_ssid ≠ ESP_OK ∨
      env.nvs_set_str_password ≠ ESP_OK ∨ env.nvs_commit ≠ ESP_OK) :
    (wifi_connect_handler st req env).outcome = .aborted ∧
    (∀ code, (wifi_connect_handler st req env).outcome ≠ .returned code) ∧
    responses (wifi_connect_handler st req env).trace = [] ∧
    .vSemaphoreDelete sem ∈ (wifi_connect_handler st req env).trace ∧
    (wifi_connect_handler st req env).st.wifi_connect_semaphore = none ∧
    (env.nvs_open ≠ ESP_OK ∨ env.nvs_set_str_ssid ≠ ESP_OK →
      (wifi_connect_handler st req env).st.nvs = st.nvs) := by
  rw [handler_in_limits st req env ssid password hret hparse hssid hpw]
  obtain ⟨e1, e2, e3, e4, e5⟩ := join_abort st (url_decode_written ssid)
    (url_decode_written password) env sem hc hcfg hco hn hfail
  refine ⟨e1, ?_, e2, e3, e4, e5⟩
  intro code hcode
  rw [e1] at hcode
  cases hcode

/-- C12 on a join that succeeds while the write of the password fails. -/
theorem C12_persistence_failure_aborts_witness :
    (wifi_connect_handler ⟨none, false, []⟩ ⟨31, bytes "ssid=TestNet&password=secret123"⟩
      ⟨0, some 5, 0, 0, false, false, true, 0, 0, ESP_FAIL, 0⟩).outcome = .aborted ∧
    responses (wifi_connect_handler ⟨none, false, []⟩
      ⟨31, bytes "ssid=TestNet&password=secret123"⟩
      ⟨0, some 5, 0, 0, false, false, true, 0, 0, ESP_FAIL, 0⟩).trace = [] :=
  ⟨(C12_persistence_failure_aborts ⟨none, false, []⟩
      ⟨31, bytes "ssid=TestNet&password=secret123"⟩
      ⟨0, some 5, 0, 0, false, false, true, 0, 0, ESP_FAIL, 0⟩
      (bytes "TestNet") (bytes "secret123") 5 (by decide) rfl (by decide) (by decide)
      rfl rfl rfl (Or.inr rfl) (Or.inr (Or.inr (Or.inl (by decide))))).1,
   (C12_persistence_failure_aborts ⟨none, false, []⟩
      ⟨31, bytes "ssid=TestNet&password=secret123"⟩
      ⟨0, some 5, 0, 0, false, false, true, 0, 0, ESP_FAIL, 0⟩
      (bytes "TestNet") (bytes "secret123") 5 (by decide) rfl (by decide) (by decide)
      rfl rfl rfl (Or.inr rfl) (Or.inr (Or.inr (Or.inl (by decide))))).2.2.1⟩

end EspOtBr
